import Mathlib

unseal Rat.add Rat.sub Rat.mul Rat.inv Rat.ofScientific

/-!
# Verification of the fundamental-analysis engine (`quant_screener.py`, `analysis/analyzer.py`)

Shallow embedding of the screener's data model and algorithms.

Modelling conventions:
* Period end-dates are ISO strings `"YYYY-MM-DD"` in the source.  They are
  modelled as `Date` triples `(y, m, d)`.  For well-formed ISO strings the
  lexicographic string order used by Python's `sorted` coincides with the
  numeric order of `Date.key = y*10000 + m*100 + d`, the suffix test
  `endswith("12-31")` is `m = 12 ∧ d = 31`, and the "same month-day, year
  minus one" arithmetic of `_prev_year_date` is `(y-1, m, d)`.
  `pd.Timestamp` subtraction `(d1 - d0).days` is the difference of civil
  day numbers, modelled by `Date.toDays` (standard days-from-civil
  algorithm).
* Python floats are modelled as exact rationals `ℚ`; `NaN` is `Option.none`.
* A Python `dict` keyed by dates is a `List (Date × ℚ)` whose keys are kept
  distinct by construction (`supsert` mirrors `dict.__setitem__`: the first
  insertion fixes the position, a later assignment overwrites the value).
* The one non-algebraic operation, the float power in `calc_cagr`, is kept
  symbolic: `calc_cagr` returns the pair `(v1/v0, years)` and the
  (noncomputable) denotation `cagrReal` maps it to
  `((v1/v0) ^ (1/years) - 1) * 100`.
-/

namespace QuantScreener

/-- A period end-date `YYYY-MM-DD`. -/
structure Date where
  y : Int
  m : Nat
  d : Nat
deriving DecidableEq, Repr

/-- Numeric key realising the lexicographic order of ISO date strings. -/
def Date.key (dt : Date) : Int := dt.y * 10000 + (dt.m : Int) * 100 + (dt.d : Int)

/-- The order in which Python's `sorted` lists ISO date strings. -/
def dleb (a b : Date) : Prop := a.key ≤ b.key

instance : DecidableRel dleb := fun a b => inferInstanceAs (Decidable (a.key ≤ b.key))

instance : IsTotal Date dleb := ⟨fun a b => Int.le_total a.key b.key⟩

instance : IsTrans Date dleb := ⟨fun _ _ _ hab hbc => le_trans hab hbc⟩

/-- Civil day number (days since 1970-01-01), modelling `pd.Timestamp`
subtraction in days. -/
def Date.toDays (dt : Date) : Int :=
  let y : Int := if dt.m ≤ 2 then dt.y - 1 else dt.y
  let era : Int := (if 0 ≤ y then y else y - 399) / 400
  let yoe : Int := y - era * 400
  let mp : Int := ((dt.m : Int) + 9) % 12
  let doy : Int := (153 * mp + 2) / 5 + (dt.d : Int) - 1
  let doe : Int := yoe * 365 + yoe / 4 - yoe / 100 + doy
  era * 146097 + doe - 719468

/-- `endswith("12-31")` on an ISO date string. -/
def Date.isAnnual (dt : Date) : Bool := dt.m == 12 && dt.d == 31

/-- A date-keyed numeric series (a Python `dict` in insertion order). -/
abbrev Series := List (Date × ℚ)

/-- The keys of a series, in insertion order (`dict.keys()`). -/
def skeys (s : Series) : List Date := s.map Prod.fst

/-- Dictionary lookup (`series.get(d)`). -/
def sget? (s : Series) (dt : Date) : Option ℚ :=
  (s.find? (fun p => p.1 == dt)).map Prod.snd

/-- Dictionary lookup `series[d]` (0 only on the missing-key paths the
source never takes). -/
def sget (s : Series) (dt : Date) : ℚ := (sget? s dt).getD 0

/-- `dict[d] = v`: overwrite in place if the key exists, else append. -/
def supsert (s : Series) (dt : Date) (v : ℚ) : Series :=
  if (s.find? (fun p => p.1 == dt)).isSome then
    s.map (fun p => if p.1 == dt then (dt, v) else p)
  else s ++ [(dt, v)]

/-- `sorted(series.keys())`. -/
def sortedKeys (s : Series) : List Date := List.insertionSort dleb (skeys s)

/-- `[series[d] for d in sorted(series.keys())]`. -/
def sortedVals (s : Series) : List ℚ := (sortedKeys s).map (sget s)

/-- `max(keys)` (well-defined for the nonempty uses in the source). -/
def maxKeyDate (l : List Date) : Date :=
  l.foldl (fun m dt => if m.key < dt.key then dt else m) (l.headD ⟨0, 0, 0⟩)

/-- `series[max(series.keys())]`. -/
def latestVal (s : Series) : ℚ := sget s (maxKeyDate (skeys s))

/-- `series[sorted(series.keys())[-1]]`. -/
def lastKey (s : Series) : Date := (sortedKeys s).getLastD ⟨0, 0, 0⟩

/-- `sorted(series.keys())[-2]` (used only when the series has ≥ 2 keys). -/
def secondLastKey (s : Series) : Date := (sortedKeys s).dropLast.getLastD ⟨0, 0, 0⟩

/-!
## `calc_cagr` (quant_screener.py:202-215)

```python
def calc_cagr(series_dict, min_years=2):
    if len(series_dict) < min_years:
        return np.nan
    dates = sorted(series_dict.keys())
    v0, v1 = series_dict[dates[0]], series_dict[dates[-1]]
    if v0 <= 0 or v1 <= 0:
        return np.nan
    try:
        d0, d1 = pd.Timestamp(dates[0]), pd.Timestamp(dates[-1])
        years = (d1 - d0).days / 365.25
        if years < 0.5: return np.nan
        return ((v1 / v0) ** (1 / years) - 1) * 100
    except:
        return np.nan
```

Every call site uses the default `min_years=2`.  The float result
`((v1/v0) ** (1/years) - 1) * 100` is represented symbolically by the pair
`(v1/v0, years)`; `cagrReal` is its real denotation.  `none` models `NaN`.
-/

/-- `(d1 - d0).days / 365.25`. -/
def yearsBetween (d0 d1 : Date) : ℚ := ((d1.toDays - d0.toDays : Int) : ℚ) / 365.25

def calc_cagr (s : Series) : Option (ℚ × ℚ) :=
  if s.length < 2 then none
  else
    let dates := sortedKeys s
    match dates.head?, dates.getLast? with
    | some d0, some d1 =>
      let v0 := sget s d0
      let v1 := sget s d1
      if v0 ≤ 0 ∨ v1 ≤ 0 then none
      else
        let years := yearsBetween d0 d1
        if years < 0.5 then none
        else some (v1 / v0, years)
    | _, _ => none

/-- Denotation of a symbolic CAGR result: `((v1/v0) ^ (1/years) - 1) * 100`. -/
noncomputable def cagrReal (p : ℚ × ℚ) : ℝ :=
  (((p.1 : ℝ)) ^ ((1 : ℝ) / (p.2 : ℝ)) - 1) * 100

/-!
## `count_consecutive_growth` (quant_screener.py:218-228)

```python
def count_consecutive_growth(series_dict):
    if len(series_dict) < 2:
        return 0
    vals = [series_dict[d] for d in sorted(series_dict.keys())]
    count = 0
    for i in range(len(vals) - 1, 0, -1):
        if vals[i] > vals[i - 1] and vals[i - 1] > 0:
            count += 1
        else:
            break
    return count
```

The backward loop over the ascending value list is the forward scan
`consecUp` over the reversed list: at each step the head `x` is `vals[i]`
and the next element `y` is `vals[i-1]`.
-/

def consecUp : List ℚ → Nat
  | x :: y :: rest => if y < x ∧ 0 < y then consecUp (y :: rest) + 1 else 0
  | _ => 0

def count_consecutive_growth (s : Series) : Nat :=
  if s.length < 2 then 0
  else consecUp (sortedVals s).reverse

/-!
## Table rows and the account resolver (quant_screener.py:52-72, 118-162)

A row of the `indicators` / `financial_statements` tables.  Both tables
share the columns the resolver reads (`종목코드`, `기준일`, `계정`, `값`);
`group` is the indicators column `지표구분` and `freq` the statements
column `주기`.
-/

structure Row where
  code : String       -- 종목코드
  date : Date         -- 기준일
  group : String      -- 지표구분 ("RATIO_Y" / "RATIO_Q" / "DPS")
  freq : String       -- 주기 ("y" / "q")
  account : String    -- 계정
  value : Option ℚ    -- 값 (none = NaN / unparseable)
deriving DecidableEq

/-- `EXACT_ACCOUNTS.get(target_key, [target_key])`. -/
def EXACT_ACCOUNTS (key : String) : List String :=
  if key = "매출액" then ["매출액", "영업수익", "이자수익", "보험료수익", "순영업수익"]
  else if key = "영업이익" then ["영업이익"]
  else if key = "순이익" then ["지배주주순이익", "당기순이익"]
  else if key = "자본" then ["자본", "자본총계", "지배주주지분", "지배기업주주지분"]
  else if key = "부채" then ["부채", "부채총계"]
  else if key = "배당금" then ["주당배당금"]
  else if key = "영업CF" then ["영업활동현금흐름", "영업활동으로인한현금흐름"]
  else if key = "투자CF" then ["투자활동현금흐름", "투자활동으로인한현금흐름"]
  else if key = "CAPEX" then ["유형자산의취득", "유형자산취득"]
  else if key = "자산총계" then ["자산총계", "자산"]
  else if key = "유동자산" then ["유동자산"]
  else if key = "유동부채" then ["유동부채"]
  else if key = "매출총이익" then ["매출총이익"]
  else [key]

def EXCLUDE_KEYWORDS : List String :=
  ["증가율", "(-1Y)", "(평균)", "률(", "비율", "배율", "(-1A", "(-1Q", "/ 수정평균"]

/-- Python's substring test `kw in name`. -/
def strContains (s kw : String) : Bool :=
  s.toList.tails.any (fun t => kw.toList.isPrefixOf t)

/-- Python's `name.startswith(t)`. -/
def strStarts (s t : String) : Bool := t.toList.isPrefixOf s.toList

/-- `_should_exclude` (quant_screener.py:118-122). -/
def should_exclude (name : String) : Bool :=
  EXCLUDE_KEYWORDS.any (fun kw => strContains name kw)

/-- `drop_duplicates(["종목코드", "기준일"], keep="first")`. -/
def dedupCodeDate (seen : List (String × Date)) : List Row → List Row
  | [] => []
  | r :: rest =>
    if (r.code, r.date) ∈ seen then dedupCodeDate seen rest
    else r :: dedupCodeDate ((r.code, r.date) :: seen) rest

/-- The dict-building loop of `find_account_value`
(quant_screener.py:152-162): `result[dt] = v` for each row whose value is
parseable, in row order. -/
def build_series : List Row → Series → Series
  | [], acc => acc
  | r :: rest, acc =>
    build_series rest (match r.value with
      | some v => supsert acc r.date v
      | none => acc)

/-- The date-filter restriction of `find_account_value`
(quant_screener.py:130-132). -/
def fav_work (df : List Row) (date_filter : Option (List Date)) : List Row :=
  match date_filter with
  | none => df
  | some f => df.filter (fun r => f.contains r.date)

/-- The matched rows of `find_account_value` (quant_screener.py:134-144):
exact label match first, else prefix fallback with exclusion keywords. -/
def fav_matched (df : List Row) (target_key : String)
    (date_filter : Option (List Date)) : List Row :=
  let targets := EXACT_ACCOUNTS target_key
  let work := fav_work df date_filter
  let matchedExact := work.filter (fun r => targets.contains r.account)
  if matchedExact.isEmpty then
    work.filter (fun r =>
      targets.any (fun t => strStarts r.account t) && !(should_exclude r.account))
  else matchedExact

/-- `find_account_value` (quant_screener.py:125-162): exact label match,
then prefix fallback with exclusion keywords, dedup by (code, date), then
build the date → value dict skipping null values. -/
def find_account_value (df : List Row) (target_key : String)
    (date_filter : Option (List Date)) : Series :=
  build_series (dedupCodeDate [] (fav_matched df target_key date_filter)) []

/-- `sorted(df["기준일"].unique())`. -/
def uniqueSortedDates (rows : List Row) : List Date :=
  List.insertionSort dleb (rows.map Row.date).dedup

/-!
## `calc_quarterly_yoy` (quant_screener.py:245-303)
-/

structure QYoy where
  latest_yoy : Option ℚ            -- 'latest_yoy' (NaN = none)
  consecutive_yoy_growth : Nat     -- 'consecutive_yoy_growth'
  latest_quarter : Option Date     -- 'latest_quarter' ("" = none)
  yoy_series : List (Date × Option ℚ)  -- 'yoy_series' (value NaN = none)
deriving DecidableEq

def qyoyDefault : QYoy := ⟨none, 0, none, []⟩

/-- `_prev_year_date` (quant_screener.py:236-242): year minus one, same
month-day. -/
def prev_year_date (dt : Date) : Date := ⟨dt.y - 1, dt.m, dt.d⟩

/-- `pd.notna(yoy_val) and yoy_val > 0`. -/
def yoyGood (v : Option ℚ) : Bool :=
  match v with
  | some x => decide (0 < x)
  | none => false

/-- The YoY series construction (quant_screener.py:272-283): for each
date in ascending order, compare with the value at the exact prior-year
date when present; positive prior → percentage, negative prior with
positive current → an undefined (NaN) entry, anything else → no entry. -/
def yoy_entries (vals : Series) : List (Date × Option ℚ) :=
  (sortedKeys vals).filterMap (fun dt =>
    match sget? vals (prev_year_date dt), sget? vals dt with
    | some prev_val, some curr_val =>
      if 0 < prev_val then some (dt, some ((curr_val / prev_val - 1) * 100))
      else if prev_val < 0 ∧ 0 < curr_val then some (dt, none)
      else none
    | _, _ => none)

def calc_quarterly_yoy (q_data : List Row) (key : String) : QYoy :=
  let q_dates := uniqueSortedDates q_data
  if q_dates.length < 5 then qyoyDefault
  else
    let vals := find_account_value q_data key none
    if vals.length < 5 then qyoyDefault
    else
      let yoy := yoy_entries vals
      if yoy.isEmpty then qyoyDefault
      else
        let latest := maxKeyDate (yoy.map Prod.fst)
        { latest_yoy := ((yoy.find? (fun p => p.1 == latest)).map Prod.snd).getD none
          consecutive_yoy_growth := ((yoy.reverse.map Prod.snd).takeWhile yoyGood).length
          latest_quarter := some latest
          yoy_series := yoy }

/-!
## `calc_ttm_yoy` (quant_screener.py:306-341)
-/

structure TtmYoy where
  ttm_current : Option ℚ
  ttm_prev : Option ℚ
  ttm_yoy : Option ℚ
deriving DecidableEq

def calc_ttm_yoy (q_data : List Row) (key : String) : TtmYoy :=
  let q_dates := uniqueSortedDates q_data
  if q_dates.length < 8 then ⟨none, none, none⟩
  else
    let vals := find_account_value q_data key none
    if vals.length < 8 then ⟨none, none, none⟩
    else
      let sorted_dates := sortedKeys vals
      let last4 := sorted_dates.drop (sorted_dates.length - 4)
      let prev4 := (sorted_dates.drop (sorted_dates.length - 8)).take 4
      let inVals (dt : Date) : Bool := (sget? vals dt).isSome
      let ttm_curr := ((last4.filter inVals).map (sget vals)).sum
      let ttm_prev := ((prev4.filter inVals).map (sget vals)).sum
      let cur := if (last4.filter inVals).length = 4 then some ttm_curr else none
      let prv := if (prev4.filter inVals).length = 4 then some ttm_prev else none
      let yoy := match cur, prv with
        | some c, some p => if 0 < p then some ((c / p - 1) * 100) else none
        | _, _ => none
      ⟨cur, prv, yoy⟩

/-!
## `detect_unit_multiplier` (quant_screener.py:176-195)

`latest_rev = max(annual_revs.values())` — note: the *maximum value* of the
annual revenue dict, not the value at the most recent date.
-/

def maxVal (l : List ℚ) : ℚ := l.foldl max (l.headD 0)

def detect_unit_multiplier (ind_df : List Row) : ℕ :=
  let sam := ind_df.filter (fun r => r.code == "005930")
  if sam.isEmpty then 100000000
  else
    let sam_y := sam.filter (fun r => r.group == "RATIO_Y")
    let rev_dict := find_account_value sam_y "매출액" none
    if rev_dict.isEmpty then 100000000
    else
      let annual_revs := rev_dict.filter (fun p => p.1.isAnnual)
      let annual_revs := if annual_revs.isEmpty then rev_dict else annual_revs
      let latest_rev := maxVal (annual_revs.map Prod.snd)
      if (1e14 : ℚ) < latest_rev then 1
      else if (1e8 : ℚ) < latest_rev then 1000000
      else if (1e5 : ℚ) < latest_rev then 100000000
      else 100000000

/-- The unit-multiplier selection rule as the specification words it: the
*most recent* annual revenue figure (the value at the maximal date of the
annual revenue dict) compared against the same thresholds.  Declared only
to contrast with `detect_unit_multiplier`, which uses the maximal *value*. -/
def claimed_unit_multiplier (ind_df : List Row) : ℕ :=
  let sam := ind_df.filter (fun r => r.code == "005930")
  if sam.isEmpty then 100000000
  else
    let sam_y := sam.filter (fun r => r.group == "RATIO_Y")
    let rev_dict := find_account_value sam_y "매출액" none
    if rev_dict.isEmpty then 100000000
    else
      let annual_revs := rev_dict.filter (fun p => p.1.isAnnual)
      let annual_revs := if annual_revs.isEmpty then rev_dict else annual_revs
      let latest_rev := latestVal annual_revs
      if (1e14 : ℚ) < latest_rev then 1
      else if (1e8 : ℚ) < latest_rev then 1000000
      else if (1e5 : ℚ) < latest_rev then 100000000
      else 100000000

/-!
## `analyze_one_stock` (quant_screener.py:348-642)
-/

/-- The per-stock analysis record (`result` dict).  CAGR fields carry the
symbolic `(ratio, years)` representation of `calc_cagr`. -/
structure StockRecord where
  code : String                    -- 종목코드
  ttm_rev : Option ℚ               -- TTM_매출
  ttm_op : Option ℚ                -- TTM_영업이익
  ttm_ni : Option ℚ                -- TTM_순이익
  ttm_source : String              -- TTM_소스
  q_rev_yoy : Option ℚ             -- Q_매출_YoY(%)
  q_rev_consec : Nat               -- Q_매출_연속YoY성장
  ttm_rev_yoy : Option ℚ           -- TTM_매출_YoY(%)
  q_op_yoy : Option ℚ              -- Q_영업이익_YoY(%)
  q_op_consec : Nat                -- Q_영업이익_연속YoY성장
  ttm_op_yoy : Option ℚ            -- TTM_영업이익_YoY(%)
  q_ni_yoy : Option ℚ              -- Q_순이익_YoY(%)
  q_ni_consec : Nat                -- Q_순이익_연속YoY성장
  ttm_ni_yoy : Option ℚ            -- TTM_순이익_YoY(%)
  latest_quarter : Option Date     -- 최근분기 ("" = none)
  equity : Option ℚ                -- 자본
  debt : Option ℚ                  -- 부채
  total_assets : Option ℚ          -- 자산총계
  rev_cagr : Option (ℚ × ℚ)        -- 매출_CAGR
  op_cagr : Option (ℚ × ℚ)         -- 영업이익_CAGR
  ni_cagr : Option (ℚ × ℚ)         -- 순이익_CAGR
  rev_consec : Nat                 -- 매출_연속성장
  op_consec : Nat                  -- 영업이익_연속성장
  ni_consec : Nat                  -- 순이익_연속성장
  data_years : Nat                 -- 데이터_연수
  opm_latest : Option ℚ            -- 영업이익률_최근
  opm_prev : Option ℚ              -- 영업이익률_전년
  margin_improved : Nat            -- 이익률_개선
  margin_delta : Option ℚ          -- 이익률_변동폭
  margin_sharp : Nat               -- 이익률_급개선
  ni_prev_neg : Nat                -- 순이익_전년음수
  ni_curr_pos : Nat                -- 순이익_당기양수
  turnaround : Nat                 -- 흑자전환
  ttm_ocf : Option ℚ               -- TTM_영업CF
  ttm_capex : Option ℚ             -- TTM_CAPEX
  ttm_fcf : Option ℚ               -- TTM_FCF
  ocf_cagr : Option (ℚ × ℚ)        -- 영업CF_CAGR
  fcf_cagr : Option (ℚ × ℚ)        -- FCF_CAGR
  ocf_consec : Nat                 -- 영업CF_연속성장
  f_score : Nat                    -- F스코어
  f1 : Nat                         -- F1_수익성
  f2 : Nat                         -- F2_영업CF
  f3 : Nat                         -- F3_ROA개선
  f4 : Nat                         -- F4_이익품질
  f5 : Nat                         -- F5_레버리지
  f6 : Nat                         -- F6_유동성
  f7 : Nat                         -- F7_희석없음
  f8 : Nat                         -- F8_매출총이익률
  f9 : Nat                         -- F9_자산회전율
  dps_latest : Option ℚ            -- DPS_최근
  dps_cagr : Option (ℚ × ℚ)        -- DPS_CAGR
  dps_consec : Nat                 -- 배당_연속증가
  div_and_earnings : Nat           -- 배당_수익동반증가
deriving DecidableEq

/-- `series[sorted(series.keys())[-1]]` for `back = 0` and
`series[sorted(series.keys())[-2]]` for `back = 1` (used only when the
series has at least 2 keys). -/
def latestAt2 (s : Series) (back : Nat) : ℚ :=
  if back = 0 then sget s (lastKey s) else sget s (secondLastKey s)

/-- The annual fallback of the TTM block (quant_screener.py:371-373):
`d = find_account_value(y_data, key, annual_dates); val = d[max(d.keys())]`
when `annual_dates` and `d` are nonempty, `NaN` otherwise. -/
def annual_latest (y_data : List Row) (key : String) : Option ℚ :=
  let annual_dates := (uniqueSortedDates y_data).filter Date.isAnnual
  if annual_dates.isEmpty then none
  else
    let d := find_account_value y_data key (some annual_dates)
    if d.isEmpty then none else some (latestVal d)

/-- One iteration of the TTM loop (quant_screener.py:364-377): sum of the
latest 4 quarters when the key resolves on all of them, else the latest
annual figure. -/
def ttm_figure (q_data y_data : List Row) (key : String) : Option ℚ :=
  let q_dates := uniqueSortedDates q_data
  let last4q := if 4 ≤ q_dates.length then q_dates.drop (q_dates.length - 4) else []
  let val : Option ℚ :=
    if last4q.isEmpty then none
    else
      let d := find_account_value (q_data.filter (fun r => last4q.contains r.date)) key none
      if 4 ≤ d.length then some ((d.map Prod.snd).sum) else none
  match val with
  | some v => some v
  | none => annual_latest y_data key


/-!
### Building blocks of `analyze_one_stock` (quant_screener.py:348-642)

The Python function is one long body; it is embedded as a composition of
small definitions, one per source block, assembled by `analyze_one_stock`.
-/

/-- Capital-structure block (quant_screener.py:407-424): equity/debt from
the latest statement date, falling back to the latest annual indicator
values when equity is still missing.  Returns `(자본, 부채)`. -/
def eqdebt_block (has_ind has_fs : Bool) (y_data fs_grp : List Row) :
    Option ℚ × Option ℚ :=
  let first : Option ℚ × Option ℚ :=
    if has_fs then
      match (uniqueSortedDates fs_grp).getLast? with
      | some last_dt =>
        let bs_last := fs_grp.filter (fun r => r.date == last_dt)
        let e := find_account_value bs_last "자본" none
        let d := find_account_value bs_last "부채" none
        (e.head?.map Prod.snd, d.head?.map Prod.snd)
      | none => (none, none)
    else (none, none)
  if first.1.isNone && has_ind then
    let e := find_account_value y_data "자본" none
    let d := find_account_value y_data "부채" none
    (if e.isEmpty then first.1 else some (latestVal e),
     if d.isEmpty then first.2 else some (latestVal d))
  else first

/-- Annual (12-31) account series for the CAGR block
(quant_screener.py:452-459): empty unless indicators are present and there
are at least two annual dates. -/
def annual_series (has_ind : Bool) (y_data : List Row) (key : String) : Series :=
  let annual_dates := (uniqueSortedDates y_data).filter Date.isAnnual
  if has_ind && decide (2 ≤ annual_dates.length) then
    find_account_value y_data key (some annual_dates)
  else []

/-- Margin block (quant_screener.py:469-491): operating margins of the two
most recent annual periods, the improved flag, the delta, and the
sharp-improvement flag. -/
def margin_block (rev_series op_series : Series) :
    (Option ℚ × Option ℚ) × (Nat × Option ℚ × Nat) :=
  if 2 ≤ rev_series.length ∧ 2 ≤ op_series.length then
    let latest := lastKey rev_series
    let prev := secondLastKey rev_series
    let opm_l : Option ℚ :=
      if 0 < sget rev_series latest
      then some (sget op_series latest / sget rev_series latest * 100) else none
    let opm_p : Option ℚ :=
      if 0 < sget rev_series prev
      then some (sget op_series prev / sget rev_series prev * 100) else none
    let improved :=
      match opm_l, opm_p with
      | some a, some b => if b < a then 1 else 0
      | _, _ => 0
    let ds : Option ℚ × Nat :=
      match opm_l, opm_p with
      | some a, some b => (some (a - b), if 5 ≤ a - b then 1 else 0)
      | _, _ => (none, 0)
    ((opm_l, opm_p), (improved, ds))
  else ((none, none), (0, none, 0))

/-- Turnaround block (quant_screener.py:493-502):
`(순이익_전년음수, 순이익_당기양수, 흑자전환)`. -/
def turnaround_block (ni_series : Series) : Nat × Nat × Nat :=
  if 2 ≤ ni_series.length then
    let nv := sortedVals ni_series
    let lastv := nv.getLastD 0
    let prevv := nv.dropLast.getLastD 0
    (if prevv < 0 then 1 else 0, if 0 < lastv then 1 else 0,
     if prevv < 0 ∧ 0 < lastv then 1 else 0)
  else (0, 0, 0)

/-- Cash-flow block (quant_screener.py:504-524): operating-CF and CAPEX
annual series, indicators first, statements as fallback, CAPEX taken as a
magnitude. -/
def ocf_capex_block (has_ind has_fs : Bool) (y_data fs_y : List Row) :
    Series × Series :=
  let annual_dates := (uniqueSortedDates y_data).filter Date.isAnnual
  let ocf0 := if has_ind then find_account_value y_data "영업CF" (some annual_dates) else []
  let capex0 := if has_ind then find_account_value y_data "CAPEX" (some annual_dates) else []
  let ocf := if ocf0.isEmpty && has_fs then find_account_value fs_y "영업CF" none else ocf0
  let capex := if capex0.isEmpty && has_fs then find_account_value fs_y "CAPEX" none else capex0
  (ocf, capex.map (fun p => (p.1, |p.2|)))

/-- FCF series (quant_screener.py:526-530): `영업CF - CAPEX` on common
years.  The Python iteration order over the intersection set is immaterial
(every later use sorts or maximises over the keys); the keys are listed in
the operating-CF dict order. -/
def fcf_block (ocf_series capex_series : Series) : Series :=
  ((skeys ocf_series).filter (fun dt => (sget? capex_series dt).isSome)).map
    (fun dt => (dt, sget ocf_series dt - sget capex_series dt))

/-- F1 profitability / F2 cash generation (quant_screener.py:547-551):
strict positivity of a possibly-missing TTM value. -/
def flag_pos (v : Option ℚ) : Nat :=
  match v with
  | some x => if 0 < x then 1 else 0
  | none => 0

/-- F3 ROA trend (quant_screener.py:553-562): per-period ratio with a 0
fallback when the asset base is not positive. -/
def fscore_roa (ni_series total_assets_series : Series) : Nat :=
  if 2 ≤ ni_series.length ∧ 2 ≤ total_assets_series.length then
    let roa_curr := if 0 < latestAt2 total_assets_series 0 then
        latestAt2 ni_series 0 / latestAt2 total_assets_series 0 else 0
    let roa_prev := if 0 < latestAt2 total_assets_series 1 then
        latestAt2 ni_series 1 / latestAt2 total_assets_series 1 else 0
    if roa_prev < roa_curr then 1 else 0
  else 0

/-- Common shape of F5/F6/F8/F9 (quant_screener.py:567-609): the ratio
`num/den` over the two most recent periods, requiring a positive
denominator in both; `upward` selects the direction of improvement. -/
def ratio_trend (num den : Series) (upward : Bool) : Nat :=
  if 2 ≤ num.length ∧ 2 ≤ den.length then
    if 0 < latestAt2 den 0 ∧ 0 < latestAt2 den 1 then
      let curr := latestAt2 num 0 / latestAt2 den 0
      let prev := latestAt2 num 1 / latestAt2 den 1
      if upward then (if prev < curr then 1 else 0)
      else (if curr < prev then 1 else 0)
    else 0
  else 0

/-- F4 earnings quality (quant_screener.py:564-565). -/
def fscore_quality (ttm_ocf ttm_ni : Option ℚ) : Nat :=
  match ttm_ocf, ttm_ni with
  | some o, some n => if 0 < n ∧ n < o then 1 else 0
  | _, _ => 0

/-- Dividend block (quant_screener.py:623-629). -/
def dps_block (has_ind : Bool) (ind_grp : List Row) : Series :=
  let dps_data := ind_grp.filter (fun r => r.group == "DPS")
  let annual_dps := (uniqueSortedDates dps_data).filter Date.isAnnual
  if has_ind && !annual_dps.isEmpty then
    find_account_value dps_data "배당금" (some annual_dps)
  else []


/-- The three quarterly-derived numbers for one account key
(quant_screener.py:383-399). -/
structure QKeyBlock where
  q_yoy : Option ℚ
  q_consec : Nat
  t_yoy : Option ℚ
deriving DecidableEq

def qkey_block (has_ind : Bool) (q_data : List Row) (key : String) : QKeyBlock :=
  let q := if has_ind then calc_quarterly_yoy q_data key else qyoyDefault
  let t := if has_ind then calc_ttm_yoy q_data key else ⟨none, none, none⟩
  ⟨q.latest_yoy, q.consecutive_yoy_growth, t.ttm_yoy⟩

/-- The nine Piotroski components (quant_screener.py:544-621). -/
structure FBlock where
  f1 : Nat
  f2 : Nat
  f3 : Nat
  f4 : Nat
  f5 : Nat
  f6 : Nat
  f7 : Nat
  f8 : Nat
  f9 : Nat
deriving DecidableEq

def FBlock.total (f : FBlock) : Nat :=
  f.f1 + f.f2 + f.f3 + f.f4 + f.f5 + f.f6 + f.f7 + f.f8 + f.f9

def fscore_block (ttm_ni ttm_ocf : Option ℚ)
    (ni_series total_assets_series debt_series equity_series
     current_assets_series current_liab_series gross_profit_series
     rev_series : Series) : FBlock :=
  { f1 := flag_pos ttm_ni
    f2 := flag_pos ttm_ocf
    f3 := fscore_roa ni_series total_assets_series
    f4 := fscore_quality ttm_ocf ttm_ni
    f5 := ratio_trend debt_series equity_series false
    f6 := ratio_trend current_assets_series current_liab_series true
    f7 := 0
    f8 := ratio_trend gross_profit_series rev_series true
    f9 := ratio_trend rev_series total_assets_series true }

/-- Balance-sheet time series for the quality score
(quant_screener.py:426-448): statement data first, indicator fallback for
total assets and for the debt/equity pair. -/
structure BsBlock where
  total_assets_series : Series
  debt_series : Series
  equity_series : Series
  current_assets_series : Series
  current_liab_series : Series
  gross_profit_series : Series
deriving DecidableEq

def bs_block (has_ind has_fs : Bool) (y_data fs_y : List Row) : BsBlock :=
  let total_assets0 := if has_fs then find_account_value fs_y "자산총계" none else []
  let debt0 := if has_fs then find_account_value fs_y "부채" none else []
  let equity0 := if has_fs then find_account_value fs_y "자본" none else []
  { total_assets_series :=
      if total_assets0.isEmpty && has_ind then find_account_value y_data "자산총계" none
      else total_assets0
    debt_series :=
      if debt0.isEmpty && has_ind then find_account_value y_data "부채" none else debt0
    equity_series :=
      if debt0.isEmpty && has_ind then find_account_value y_data "자본" none else equity0
    current_assets_series := if has_fs then find_account_value fs_y "유동자산" none else []
    current_liab_series := if has_fs then find_account_value fs_y "유동부채" none else []
    gross_profit_series := if has_fs then find_account_value fs_y "매출총이익" none else [] }

/-- Cash-flow figures (quant_screener.py:504-542). -/
structure CashBlock where
  ttm_ocf : Option ℚ
  ttm_capex : Option ℚ
  ttm_fcf : Option ℚ
  ocf_cagr : Option (ℚ × ℚ)
  fcf_cagr : Option (ℚ × ℚ)
  ocf_consec : Nat
deriving DecidableEq

def cash_block (has_ind has_fs : Bool) (y_data fs_y : List Row) : CashBlock :=
  let cf := ocf_capex_block has_ind has_fs y_data fs_y
  let fcf_series := fcf_block cf.1 cf.2
  { ttm_ocf := if cf.1.isEmpty then none else some (latestVal cf.1)
    ttm_capex := if cf.2.isEmpty then none else some (latestVal cf.2)
    ttm_fcf := if fcf_series.isEmpty then none else some (latestVal fcf_series)
    ocf_cagr := calc_cagr cf.1
    fcf_cagr := calc_cagr fcf_series
    ocf_consec := count_consecutive_growth cf.1 }

def analyze_one_stock (ticker : String) (ind_grp fs_grp : List Row) : StockRecord :=
  let has_ind := !ind_grp.isEmpty
  let has_fs := !fs_grp.isEmpty
  let y_data := ind_grp.filter (fun r => r.group == "RATIO_Y")
  let q_data := ind_grp.filter (fun r => r.group == "RATIO_Q")
  let fs_y := fs_grp.filter (fun r => r.freq == "y")
  let ttm_rev := if has_ind then ttm_figure q_data y_data "매출액" else none
  let ttm_ni := if has_ind then ttm_figure q_data y_data "순이익" else none
  let eqdebt := eqdebt_block has_ind has_fs y_data fs_grp
  let bs := bs_block has_ind has_fs y_data fs_y
  let rev_series := annual_series has_ind y_data "매출액"
  let op_series := annual_series has_ind y_data "영업이익"
  let ni_series := annual_series has_ind y_data "순이익"
  let margins := margin_block rev_series op_series
  let turn := turnaround_block ni_series
  let cash := cash_block has_ind has_fs y_data fs_y
  let f := fscore_block ttm_ni cash.ttm_ocf ni_series bs.total_assets_series
    bs.debt_series bs.equity_series bs.current_assets_series
    bs.current_liab_series bs.gross_profit_series rev_series
  let qrev := qkey_block has_ind q_data "매출액"
  let qop := qkey_block has_ind q_data "영업이익"
  let qni := qkey_block has_ind q_data "순이익"
  let dps_series := dps_block has_ind ind_grp
  { code := ticker
    ttm_rev := ttm_rev
    ttm_op := if has_ind then ttm_figure q_data y_data "영업이익" else none
    ttm_ni := ttm_ni
    ttm_source := if has_ind && ttm_rev.isSome then "있음" else "없음"
    q_rev_yoy := qrev.q_yoy
    q_rev_consec := qrev.q_consec
    ttm_rev_yoy := qrev.t_yoy
    q_op_yoy := qop.q_yoy
    q_op_consec := qop.q_consec
    ttm_op_yoy := qop.t_yoy
    q_ni_yoy := qni.q_yoy
    q_ni_consec := qni.q_consec
    ttm_ni_yoy := qni.t_yoy
    latest_quarter := if has_ind then (uniqueSortedDates q_data).getLast? else none
    equity := eqdebt.1
    debt := eqdebt.2
    total_assets :=
      if bs.total_assets_series.isEmpty then none
      else some (latestVal bs.total_assets_series)
    rev_cagr := calc_cagr rev_series
    op_cagr := calc_cagr op_series
    ni_cagr := calc_cagr ni_series
    rev_consec := count_consecutive_growth rev_series
    op_consec := count_consecutive_growth op_series
    ni_consec := count_consecutive_growth ni_series
    data_years := rev_series.length
    opm_latest := margins.1.1
    opm_prev := margins.1.2
    margin_improved := margins.2.1
    margin_delta := margins.2.2.1
    margin_sharp := margins.2.2.2
    ni_prev_neg := turn.1
    ni_curr_pos := turn.2.1
    turnaround := turn.2.2
    ttm_ocf := cash.ttm_ocf
    ttm_capex := cash.ttm_capex
    ttm_fcf := cash.ttm_fcf
    ocf_cagr := cash.ocf_cagr
    fcf_cagr := cash.fcf_cagr
    ocf_consec := cash.ocf_consec
    f_score := f.total
    f1 := f.f1, f2 := f.f2, f3 := f.f3, f4 := f.f4, f5 := f.f5, f6 := f.f6
    f7 := f.f7, f8 := f.f8, f9 := f.f9
    dps_latest := (dps_series.map Prod.snd).getLast?
    dps_cagr := calc_cagr dps_series
    dps_consec := count_consecutive_growth dps_series
    div_and_earnings :=
      if 2 ≤ count_consecutive_growth ni_series ∧ 1 ≤ count_consecutive_growth dps_series
      then 1 else 0 }


/-!
## Percentile ranking and the composite score (quant_screener.py:769-816)

`Series.rank(pct=True, na_option='keep')` with the default `method =
'average'`: a non-null value `v` receives the average of the positions it
would occupy among the non-null values, divided by the number of non-null
values; null stays null.
-/

/-- Average rank of `v` among the multiset `xs`:
`#{w < v} + (#{w = v} + 1)/2`. -/
def rank_avg (xs : List ℚ) (v : ℚ) : ℚ :=
  (xs.countP (fun w => decide (w < v)) : ℚ) +
    ((xs.countP (fun w => decide (w = v)) : ℚ) + 1) / 2

/-- `col.rank(pct=True, na_option='keep')`. -/
def rank_pct (col : List (Option ℚ)) : List (Option ℚ) :=
  let xs := col.filterMap id
  col.map (Option.map (fun v => rank_avg xs v / (xs.length : ℚ)))

/-- An ascending score column, `col.rank(pct=True, na_option='keep') * 100`. -/
def score_high (col : List (Option ℚ)) : List (Option ℚ) :=
  (rank_pct col).map (Option.map (fun r => r * 100))

/-- A descending score column, `(1 - col.rank(pct=True, na_option='keep')) * 100`
(used for `S_PER` and `S_PBR`). -/
def score_low (col : List (Option ℚ)) : List (Option ℚ) :=
  (rank_pct col).map (Option.map (fun r => (1 - r) * 100))

/-- The thirteen weights of `종합점수` (quant_screener.py:802-816), in
source order: S_PER, S_PBR, S_ROE, S_매출CAGR, S_영업이익CAGR,
S_순이익CAGR, S_연속성장, S_이익률개선, S_배당수익률, S_배당연속증가,
S_괴리율, S_F스코어, S_FCF수익률. -/
def composite_weights : List ℚ :=
  [1.5, 1, 2, 2, 2, 1, 1, 1, 0.3, 0.3, 1, 2, 1.5]

/-- One row's composite score: `Σ wᵢ * Sᵢ.fillna(0)`. -/
def composite_score (subs : List (Option ℚ)) : ℚ :=
  ((composite_weights.zip subs).map (fun p => p.1 * p.2.getD 0)).sum

/-!
## Screens (quant_screener.py:938-951 and 1069-1103)

A row of the scored table (`full_df`), restricted to the columns the two
screens read.  Every numeric column is `Option ℚ` (pandas columns with
possible `NaN`); a comparison against `NaN` is `False`, which the
`o*`-helpers encode.
-/

structure ScoredRow where
  ttm_ni : Option ℚ        -- TTM_순이익
  roe : Option ℚ           -- ROE(%)
  per : Option ℚ           -- PER
  pbr : Option ℚ           -- PBR
  rev_consec : Option ℚ    -- 매출_연속성장
  ni_consec : Option ℚ     -- 순이익_연속성장
  mcap : Option ℚ          -- 시가총액
  per_flag : String        -- PER_이상 ("" or the warning marker)
  f_score : Option ℚ       -- F스코어
  total_score : Option ℚ   -- 종합점수
  turnaround : Option ℚ    -- 흑자전환
  margin_sharp : Option ℚ  -- 이익률_급개선
  margin_delta : Option ℚ  -- 이익률_변동폭
  rev_cagr : Option ℚ      -- 매출_CAGR
  rsi14 : Option ℚ         -- RSI_14
  high52 : Option ℚ        -- 52주_최고대비(%)
  srim_gap_score : Option ℚ -- S_괴리율
deriving DecidableEq

/-- `x > c` on a nullable column. -/
def ogt (x : Option ℚ) (c : ℚ) : Bool :=
  match x with
  | some v => decide (c < v)
  | none => false

/-- `x >= c` on a nullable column. -/
def oge (x : Option ℚ) (c : ℚ) : Bool :=
  match x with
  | some v => decide (c ≤ v)
  | none => false

/-- `x == c` on a nullable column. -/
def oeq (x : Option ℚ) (c : ℚ) : Bool :=
  match x with
  | some v => v == c
  | none => false

/-- `x.between(lo, hi)` (inclusive) on a nullable column. -/
def obetween (x : Option ℚ) (lo hi : ℚ) : Bool :=
  match x with
  | some v => decide (lo ≤ v) && decide (v ≤ hi)
  | none => false

/-- The mask of `apply_screen` (quant_screener.py:940-950). -/
def screen_mask (r : ScoredRow) : Bool :=
  r.ttm_ni.isSome && ogt r.ttm_ni 0 &&
  oge r.roe 5 &&
  obetween r.per 1 50 &&
  obetween r.pbr 0.1 10 &&
  oge r.rev_consec 2 &&
  oge r.ni_consec 1 &&
  oge r.mcap 50000000000 &&
  (r.per_flag == "") &&
  oge r.f_score 5

/-- `NaN`-last sort key: scores ordered in `WithBot ℚ`, missing = bottom
(pandas `sort_values(..., ascending=False)` puts `NaN` last). -/
def oKey (x : Option ℚ) : WithBot ℚ :=
  match x with
  | some v => (v : WithBot ℚ)
  | none => ⊥

/-- `① 기본 우량주/저평가 스크리닝`:
`df[mask].sort_values("종합점수", ascending=False)`. -/
def apply_screen (df : List ScoredRow) : List ScoredRow :=
  List.insertionSort (fun a b => oKey b.total_score ≤ oKey a.total_score)
    (df.filter screen_mask)

/-- The mask of `apply_turnaround_screen` (quant_screener.py:1079-1086). -/
def turn_mask (r : ScoredRow) : Bool :=
  (oeq r.turnaround 1 || oeq r.margin_sharp 1) &&
  ogt r.ttm_ni 0 &&
  oge r.mcap 30000000000

/-- Percentile rank of one value within a column of values
(`rank(pct=True)` on a fully non-null column). -/
def rankv (xs : List ℚ) (v : ℚ) : ℚ := rank_avg xs v / (xs.length : ℚ)

/-- `NaN`-propagating sum of score terms (`pandas`: adding a `NaN` rank to
the blend makes the whole score `NaN`). -/
def osum (l : List (Option ℚ)) : Option ℚ :=
  l.foldr (fun x acc =>
    match x, acc with
    | some a, some b => some (a + b)
    | _, _ => none) (some 0)

/-- `턴어라운드_점수` of one row `r` within the screened subset `t`
(quant_screener.py:1089-1100).  Ranks are value-determined, so each
per-column rank is computed from `r`'s own (filled) value against the
subset's column. -/
def turn_score (t : List ScoredRow) (r : ScoredRow) : Option ℚ :=
  let delta_xs := t.map (fun x => x.margin_delta.getD 0)
  let cagr_xs := (t.map ScoredRow.rev_cagr).filterMap id
  let roe_xs := (t.map ScoredRow.roe).filterMap id
  let per_xs := (t.map (fun x => x.per.map (fun v => min (max v 0) 100))).filterMap id
  let rsi_xs := t.map (fun x => x.rsi14.getD 50)
  let h52_xs := t.map (fun x => |x.high52.getD 0|)
  let f_xs := t.map (fun x => x.f_score.getD 0)
  osum
    [ some (rankv delta_xs (r.margin_delta.getD 0) * 2),
      r.rev_cagr.map (fun v => rankv cagr_xs v * 2),
      r.roe.map (fun v => rankv roe_xs v * 1.5),
      some (r.turnaround.getD 0 * 2),
      (r.per.map (fun v => min (max v 0) 100)).map (fun v => (1 - rankv per_xs v) * 1),
      some (r.margin_sharp.getD 0 * 1.5),
      some ((1 - rankv rsi_xs (r.rsi14.getD 50)) * 1),
      some ((1 - rankv h52_xs |r.high52.getD 0|) * 1),
      some (rankv f_xs (r.f_score.getD 0) * 0.5),
      some (r.srim_gap_score.getD 0 / 100 * 0.5) ]

/-- `⑤ 턴어라운드`: filter, compute the subset-relative score, sort by it
descending with `NaN` last. -/
def apply_turnaround_screen (df : List ScoredRow) : List ScoredRow :=
  let t := df.filter turn_mask
  List.insertionSort (fun a b => oKey (turn_score t b) ≤ oKey (turn_score t a)) t

/-!
## `normalize_code` / `load_table` (quant_screener.py:79-111)
-/

/-- Python `str.zfill(width)`: left-pad with zeros to `width`, keeping a
leading sign in place; strings already at least `width` long are returned
unchanged. -/
def zfillChars (width : Nat) (cs : List Char) : List Char :=
  if width ≤ cs.length then cs
  else
    match cs with
    | c :: rest =>
      if c = '-' ∨ c = '+' then c :: (List.replicate (width - cs.length) '0' ++ rest)
      else List.replicate (width - cs.length) '0' ++ cs
    | [] => List.replicate width '0'

/-- Python `str.strip()` on the character list (whitespace on both ends). -/
def pyStrip (cs : List Char) : List Char :=
  ((cs.dropWhile Char.isWhitespace).reverse.dropWhile Char.isWhitespace).reverse

/-- The stripped pre-dot part of a raw code cell
(`s = str(x).strip(); s = s.split('.')[0] if '.' in s else s`):
`split('.')[0]` is the prefix before the first dot. -/
def code_core (raw : String) : List Char :=
  let s := pyStrip raw.toList
  if s.contains '.' then s.takeWhile (fun c => !(c == '.')) else s

/-- `normalize_code` (quant_screener.py:79-88).  The raw cell is modelled
as `Option String`: `none` is a missing value (`pd.isna`), `some raw` the
string rendering of the cell. -/
def normalize_code (x : Option String) : Option String :=
  match x with
  | none => none
  | some raw =>
    if (pyStrip raw.toList).isEmpty then none
    else some (String.mk (zfillChars 6 (code_core raw)))

/-- The code column of `load_table` (quant_screener.py:100-102):
`df["종목코드"].apply(normalize_code)` followed by
`df.dropna(subset=["종목코드"])`. -/
def load_codes (codes : List (Option String)) : List String :=
  (codes.map normalize_code).filterMap id

/-!
## The two RSI implementations

`calc_technical_indicators` (quant_screener.py:880-893) and `compute_rsi`
(analysis/analyzer.py:30-45).  Both average the gains and losses of the
last 14 one-step price differences.
-/

/-- Consecutive differences (`Series.diff()` without its leading `NaN`). -/
def diffs : List ℚ → List ℚ
  | a :: b :: rest => (b - a) :: diffs (b :: rest)
  | _ => []

/-- Average gain of the last `n` deltas (`delta.where(delta > 0, 0)` mean). -/
def avg_gain (deltas : List ℚ) (n : Nat) : ℚ :=
  (((deltas.drop (deltas.length - n)).map (fun d => if 0 < d then d else 0)).sum) / n

/-- Average loss of the last `n` deltas (`-delta.where(delta < 0, 0)` mean). -/
def avg_loss (deltas : List ℚ) (n : Nat) : ℚ :=
  (((deltas.drop (deltas.length - n)).map (fun d => if d < 0 then -d else 0)).sum) / n

/-- The screener's 14-day RSI (quant_screener.py:880-893): requires ≥ 15
closes; `avg_loss > 0` → Wilder formula, else `avg_gain > 0` → 100, else
the neutral 50. -/
def rsi_screener (closes : List ℚ) : Option ℚ :=
  if 15 ≤ closes.length then
    let ds := diffs closes
    let g := avg_gain ds 14
    let l := avg_loss ds 14
    if 0 < l then some (100 - 100 / (1 + g / l))
    else if 0 < g then some 100
    else some 50
  else none

/-- Python `round(x, 2)` (round-half-to-even on the hundredths). -/
def round_half_even (q : ℚ) : Int :=
  if q - ⌊q⌋ < 1/2 then ⌊q⌋
  else if (1/2 : ℚ) < q - ⌊q⌋ then ⌊q⌋ + 1
  else if ⌊q⌋ % 2 = 0 then ⌊q⌋ else ⌊q⌋ + 1

def pyround2 (q : ℚ) : ℚ := (round_half_even (q * 100) : ℚ) / 100

/-- `compute_rsi` (analysis/analyzer.py:30-45): requires ≥ `period + 1`
closes; when the average loss is 0 it returns 100.0 — even if the average
gain is also 0. -/
def compute_rsi (closes : List ℚ) (period : Nat) : Option ℚ :=
  if closes.length < period + 1 then none
  else
    let ds := diffs closes
    let gains := avg_gain ds period
    let losses := avg_loss ds period
    if losses = 0 then some 100
    else some (pyround2 (100 - 100 / (1 + gains / losses)))


/-!
## Supporting lemmas
-/

lemma sortedKeys_perm (s : Series) : List.Perm (sortedKeys s) (skeys s) :=
  List.perm_insertionSort _ _

lemma sortedKeys_sorted (s : Series) : (sortedKeys s).Sorted dleb :=
  List.sorted_insertionSort _ _

lemma skeys_length (s : Series) : (skeys s).length = s.length := by
  simp [skeys]

lemma sortedKeys_length (s : Series) : (sortedKeys s).length = s.length := by
  rw [(sortedKeys_perm s).length_eq, skeys_length]

lemma mem_sortedKeys {s : Series} {d : Date} : d ∈ sortedKeys s ↔ d ∈ skeys s :=
  (sortedKeys_perm s).mem_iff

lemma sorted_head_le {l : List Date} (hs : l.Sorted dleb) (hne : l ≠ [])
    {x : Date} (hx : x ∈ l) : dleb (l.head hne) x := by
  cases l with
  | nil => exact absurd rfl hne
  | cons a t =>
    rcases List.mem_cons.1 hx with rfl | hx
    · exact le_refl _
    · exact List.rel_of_sorted_cons hs _ hx

lemma sorted_le_getLast {l : List Date} (hs : l.Sorted dleb) (hne : l ≠ [])
    {x : Date} (hx : x ∈ l) : dleb x (l.getLast hne) := by
  induction l with
  | nil => exact absurd rfl hne
  | cons a t ih =>
    cases t with
    | nil =>
      have hx' : x = a := by simpa using hx
      subst hx'
      exact le_refl _
    | cons b u =>
      rcases List.mem_cons.1 hx with rfl | hx
      · rw [List.getLast_cons (by simp)]
        exact List.rel_of_sorted_cons hs _ (List.getLast_mem _)
      · rw [List.getLast_cons (by simp)]
        exact ih (List.sorted_cons.1 hs).2 (by simp) hx

/-!
## C1 — `calc_cagr`
-/

/-- **C1**: For every date-keyed numeric series, `calc_cagr` returns
undefined (`none`, never a number — in particular never zero) unless the
series has at least 2 dated points, the values at the earliest and latest
dates are strictly positive, and the span between those dates is at least
half a year (in days over 365.25); when the conditions hold it returns
`((latest/earliest) ^ (1/years) - 1) * 100` with
`years = days-between / 365.25`. -/
theorem c1_calc_cagr_spec (s : Series) :
    (s.length < 2 → calc_cagr s = none) ∧
    (2 ≤ s.length →
      ∃ d0 d1 : Date, d0 ∈ skeys s ∧ d1 ∈ skeys s ∧
        (∀ dt ∈ skeys s, d0.key ≤ dt.key ∧ dt.key ≤ d1.key) ∧
        (¬ (0 < sget s d0 ∧ 0 < sget s d1 ∧ (0.5 : ℚ) ≤ yearsBetween d0 d1) →
          calc_cagr s = none) ∧
        ((0 < sget s d0 ∧ 0 < sget s d1 ∧ (0.5 : ℚ) ≤ yearsBetween d0 d1) →
          Option.map cagrReal (calc_cagr s) =
            some ((((sget s d1 : ℝ) / (sget s d0 : ℝ)) ^
              ((1 : ℝ) / ((yearsBetween d0 d1 : ℚ) : ℝ)) - 1) * 100))) := by
  constructor
  · intro h
    unfold calc_cagr
    rw [if_pos h]
  · intro h
    have hlen : (sortedKeys s).length = s.length := sortedKeys_length s
    have hne : sortedKeys s ≠ [] := by
      intro hempty
      rw [hempty] at hlen
      simp at hlen
      omega
    refine ⟨(sortedKeys s).head hne, (sortedKeys s).getLast hne,
      mem_sortedKeys.1 (List.head_mem hne), mem_sortedKeys.1 (List.getLast_mem hne),
      ?_, ?_, ?_⟩
    · intro dt hdt
      have hdt' : dt ∈ sortedKeys s := mem_sortedKeys.2 hdt
      exact ⟨sorted_head_le (sortedKeys_sorted s) hne hdt',
        sorted_le_getLast (sortedKeys_sorted s) hne hdt'⟩
    · intro hbad
      unfold calc_cagr
      rw [if_neg (by omega)]
      simp only [List.head?_eq_head hne, List.getLast?_eq_getLast _ hne]
      by_cases h0 : sget s ((sortedKeys s).head hne) ≤ 0 ∨
          sget s ((sortedKeys s).getLast hne) ≤ 0
      · rw [if_pos h0]
      · rw [if_neg h0]
        push_neg at h0 hbad
        rw [if_pos (lt_of_not_le (fun hy => (hbad h0.1 h0.2).not_le hy))]
    · intro hgood
      obtain ⟨h0, h1, hy⟩ := hgood
      unfold calc_cagr
      rw [if_neg (by omega)]
      simp only [List.head?_eq_head hne, List.getLast?_eq_getLast _ hne]
      rw [if_neg (by push_neg; exact ⟨h0, h1⟩), if_neg (not_lt.2 hy)]
      simp only [Option.map_some']
      unfold cagrReal
      congr 1
      push_cast
      ring_nf

/-- Witness for C1 at the two-point series
`{2021-12-31: 100, 2023-12-31: 121}` (span 730 days = 2 years). -/
theorem c1_calc_cagr_spec_witness :
    2 ≤ ([((⟨2021,12,31⟩ : Date), (100 : ℚ)), (⟨2023,12,31⟩, 121)] : Series).length ∧
    (∃ d0 d1 : Date,
        d0 ∈ skeys [((⟨2021,12,31⟩ : Date), (100 : ℚ)), (⟨2023,12,31⟩, 121)] ∧
        d1 ∈ skeys [((⟨2021,12,31⟩ : Date), (100 : ℚ)), (⟨2023,12,31⟩, 121)] ∧
        (∀ dt ∈ skeys [((⟨2021,12,31⟩ : Date), (100 : ℚ)), (⟨2023,12,31⟩, 121)],
          d0.key ≤ dt.key ∧ dt.key ≤ d1.key) ∧
        (¬ (0 < sget [((⟨2021,12,31⟩ : Date), (100 : ℚ)), (⟨2023,12,31⟩, 121)] d0 ∧
              0 < sget [((⟨2021,12,31⟩ : Date), (100 : ℚ)), (⟨2023,12,31⟩, 121)] d1 ∧
              (0.5 : ℚ) ≤ yearsBetween d0 d1) →
          calc_cagr [((⟨2021,12,31⟩ : Date), (100 : ℚ)), (⟨2023,12,31⟩, 121)] = none) ∧
        ((0 < sget [((⟨2021,12,31⟩ : Date), (100 : ℚ)), (⟨2023,12,31⟩, 121)] d0 ∧
              0 < sget [((⟨2021,12,31⟩ : Date), (100 : ℚ)), (⟨2023,12,31⟩, 121)] d1 ∧
              (0.5 : ℚ) ≤ yearsBetween d0 d1) →
          Option.map cagrReal
              (calc_cagr [((⟨2021,12,31⟩ : Date), (100 : ℚ)), (⟨2023,12,31⟩, 121)]) =
            some ((((sget [((⟨2021,12,31⟩ : Date), (100 : ℚ)), (⟨2023,12,31⟩, 121)] d1 : ℝ) /
                (sget [((⟨2021,12,31⟩ : Date), (100 : ℚ)), (⟨2023,12,31⟩, 121)] d0 : ℝ)) ^
              ((1 : ℝ) / ((yearsBetween d0 d1 : ℚ) : ℝ)) - 1) * 100))) :=
  ⟨by decide, (c1_calc_cagr_spec _).2 (by decide)⟩

/-!
## C2 — `count_consecutive_growth`
-/

/-- **C2**: `count_consecutive_growth` sorts dates ascending and scans from
the most recent step backward: at each step it increments only while
`value[i] > value[i-1]` and `value[i-1] > 0` and stops at the first
violating step (the recursion equation of `consecUp`, the scan it runs on
the reversed value list); it returns 0 for series with fewer than 2 points;
and on `{2020: 10, 2021: 20, 2022: 15, 2023: 30}` it returns 1, not 2. -/
theorem c2_consecutive_growth_spec :
    (∀ s : Series, s.length < 2 → count_consecutive_growth s = 0) ∧
    (∀ s : Series, 2 ≤ s.length →
      count_consecutive_growth s = consecUp (sortedVals s).reverse) ∧
    (∀ (l : List ℚ) (a b : ℚ),
      consecUp (b :: a :: l) = if a < b ∧ 0 < a then consecUp (a :: l) + 1 else 0) ∧
    count_consecutive_growth
        [((⟨2020,1,1⟩ : Date), (10 : ℚ)), (⟨2021,1,1⟩, 20), (⟨2022,1,1⟩, 15),
          (⟨2023,1,1⟩, 30)] = 1 ∧
    count_consecutive_growth
        [((⟨2020,1,1⟩ : Date), (10 : ℚ)), (⟨2021,1,1⟩, 20), (⟨2022,1,1⟩, 15),
          (⟨2023,1,1⟩, 30)] ≠ 2 := by
  refine ⟨fun s h => ?_, fun s h => ?_, fun l a b => ?_, by decide, by decide⟩
  · unfold count_consecutive_growth
    rw [if_pos h]
  · unfold count_consecutive_growth
    rw [if_neg (by omega)]
  · rfl

/-- Witness for C2: a one-point series has fewer than 2 points and counts 0. -/
theorem c2_consecutive_growth_spec_witness :
    ([((⟨2020,1,1⟩ : Date), (5 : ℚ))] : Series).length < 2 ∧
    count_consecutive_growth [((⟨2020,1,1⟩ : Date), (5 : ℚ))] = 0 :=
  ⟨by decide, c2_consecutive_growth_spec.1 _ (by decide)⟩


/-!
## C7 — `analyze_one_stock` on empty inputs
-/

/-- **C7**: `analyze_one_stock` never fails on absent data: on empty
indicator and statement slices it still returns a record in which every
derived field is undefined (`none`) or its documented default (0 for
consecutive-growth counts, flags, and the nine quality-score components,
the "없음" source marker, the empty latest quarter); and for *all* inputs
the quality score is the sum of the nine components. -/
theorem c7_empty_input_defaults :
    (∀ t : String, analyze_one_stock t [] [] =
      { code := t
        ttm_rev := none, ttm_op := none, ttm_ni := none, ttm_source := "없음"
        q_rev_yoy := none, q_rev_consec := 0, ttm_rev_yoy := none
        q_op_yoy := none, q_op_consec := 0, ttm_op_yoy := none
        q_ni_yoy := none, q_ni_consec := 0, ttm_ni_yoy := none
        latest_quarter := none
        equity := none, debt := none, total_assets := none
        rev_cagr := none, op_cagr := none, ni_cagr := none
        rev_consec := 0, op_consec := 0, ni_consec := 0
        data_years := 0
        opm_latest := none, opm_prev := none
        margin_improved := 0, margin_delta := none, margin_sharp := 0
        ni_prev_neg := 0, ni_curr_pos := 0, turnaround := 0
        ttm_ocf := none, ttm_capex := none, ttm_fcf := none
        ocf_cagr := none, fcf_cagr := none, ocf_consec := 0
        f_score := 0, f1 := 0, f2 := 0, f3 := 0, f4 := 0, f5 := 0, f6 := 0
        f7 := 0, f8 := 0, f9 := 0
        dps_latest := none, dps_cagr := none, dps_consec := 0
        div_and_earnings := 0 }) ∧
    (∀ (t : String) (ind fs : List Row),
      (analyze_one_stock t ind fs).f_score =
        (analyze_one_stock t ind fs).f1 + (analyze_one_stock t ind fs).f2 +
        (analyze_one_stock t ind fs).f3 + (analyze_one_stock t ind fs).f4 +
        (analyze_one_stock t ind fs).f5 + (analyze_one_stock t ind fs).f6 +
        (analyze_one_stock t ind fs).f7 + (analyze_one_stock t ind fs).f8 +
        (analyze_one_stock t ind fs).f9) :=
  ⟨fun _ => rfl, fun _ _ _ => rfl⟩

/-!
## C9 — `normalize_code` / `load_table`
-/

/-- **C9 counterexample**: the claim says every normalized code is exactly
6 characters or the row is dropped; the 7-character input `"1234567"` is
neither dropped nor shortened — `zfill(6)` leaves longer strings as they
are. -/
theorem c9_normalize_code_cex :
    normalize_code (some "1234567") = some "1234567" ∧
    ("1234567" : String).length ≠ 6 :=
  ⟨by decide, by decide⟩

/-- (zfill pads to at least the requested width.) -/
lemma zfillChars_length (w : Nat) (cs : List Char) :
    (zfillChars w cs).length = max w cs.length := by
  unfold zfillChars
  split
  next h => omega
  next h =>
    split
    next c rest =>
      simp only [List.length_cons] at h
      split
      next hs =>
        simp only [List.length_cons, List.length_append, List.length_replicate]
        omega
      next hs =>
        simp only [List.length_cons, List.length_append, List.length_replicate]
        omega
    next =>
      simp

/-- **C9 amended**: `normalize_code` returns absent for missing/blank
cells and otherwise the stripped pre-dot part, left-zero-padded to *at
least* 6 characters: exactly 6 when that part has at most 6 characters,
but longer inputs are kept at their full length (not dropped, not
truncated).  `load_table` keeps exactly the rows whose code normalized to
a present value. -/
theorem c9_normalize_code_amended :
    normalize_code none = none ∧
    (∀ raw : String, pyStrip raw.toList = [] → normalize_code (some raw) = none) ∧
    (∀ (raw : String) (s : String), normalize_code (some raw) = some s →
      s = String.mk (zfillChars 6 (code_core raw)) ∧
      6 ≤ s.length ∧
      ((code_core raw).length ≤ 6 → s.length = 6)) ∧
    (∀ (codes : List (Option String)) (c : String),
      c ∈ load_codes codes → ∃ x ∈ codes, normalize_code x = some c) := by
  refine ⟨rfl, fun raw h => ?_, fun raw s h => ?_, fun codes c h => ?_⟩
  · have h' : pyStrip raw.data = [] := h
    simp [normalize_code, h']
  · simp only [normalize_code] at h
    by_cases hb : (pyStrip raw.toList).isEmpty
    · rw [if_pos hb] at h
      exact absurd h (by simp)
    · rw [if_neg hb] at h
      have hs : s = String.mk (zfillChars 6 (code_core raw)) := by
        exact (Option.some_inj.1 h).symm
      subst hs
      have hlen : (String.mk (zfillChars 6 (code_core raw))).length =
          max 6 (code_core raw).length := by
        show (zfillChars 6 (code_core raw)).length = _
        exact zfillChars_length _ _
      refine ⟨rfl, ?_, ?_⟩
      · rw [hlen]; omega
      · intro hle; rw [hlen]; omega
  · unfold load_codes at h
    rw [List.mem_filterMap] at h
    obtain ⟨x, hx, hfx⟩ := h
    rw [List.mem_map] at hx
    obtain ⟨y, hy, hyx⟩ := hx
    exact ⟨y, hy, by rw [hyx]; simpa using hfx⟩

/-- Witness for C9 at concrete inputs: a short code is padded to exactly 6
characters. -/
theorem c9_normalize_code_amended_witness :
    normalize_code (some " 5930.0 ") = some "005930" ∧
    ("005930" = String.mk (zfillChars 6 (code_core " 5930.0 ")) ∧
      6 ≤ ("005930" : String).length ∧
      ((code_core " 5930.0 ").length ≤ 6 → ("005930" : String).length = 6)) :=
  ⟨by decide, c9_normalize_code_amended.2.2.1 " 5930.0 " "005930" (by decide)⟩

/-!
## C10 — the two RSI implementations
-/

/-- **C10 counterexample**: on a flat 15-price series both the average
gain and the average loss are 0, and the claim requires the neutral value
50 from every RSI implementation, but `compute_rsi`
(analysis/analyzer.py) returns 100. -/
theorem c10_rsi_cex :
    avg_loss (diffs (List.replicate 15 (10 : ℚ))) 14 = 0 ∧
    avg_gain (diffs (List.replicate 15 (10 : ℚ))) 14 = 0 ∧
    compute_rsi (List.replicate 15 (10 : ℚ)) 14 = some 100 ∧
    (100 : ℚ) ≠ 50 :=
  ⟨by decide, by decide, by decide, by decide⟩

/-- **C10 amended**: for every price series long enough (≥ 15 closes), the
screener's RSI returns 100 when the 14-delta average loss is 0 and the
average gain is positive, and the neutral 50 when both are 0; the analysis
module's `compute_rsi` instead returns 100 *whenever* the average loss is
0 — including the flat case where the average gain is also 0. -/
theorem c10_rsi_amended (closes : List ℚ) (hlen : 15 ≤ closes.length) :
    (avg_loss (diffs closes) 14 = 0 → 0 < avg_gain (diffs closes) 14 →
      rsi_screener closes = some 100 ∧ compute_rsi closes 14 = some 100) ∧
    (avg_loss (diffs closes) 14 = 0 → avg_gain (diffs closes) 14 = 0 →
      rsi_screener closes = some 50 ∧ compute_rsi closes 14 = some 100) := by
  constructor
  · intro hl hg
    constructor
    · unfold rsi_screener
      rw [if_pos hlen, if_neg (by rw [hl]; exact lt_irrefl 0), if_pos hg]
    · unfold compute_rsi
      rw [if_neg (by omega), if_pos hl]
  · intro hl hg
    constructor
    · unfold rsi_screener
      rw [if_pos hlen, if_neg (by rw [hl]; exact lt_irrefl 0),
        if_neg (by rw [hg]; exact lt_irrefl 0)]
    · unfold compute_rsi
      rw [if_neg (by omega), if_pos hl]

/-- Witness for C10: an increasing 15-price series (loss 0, gain 1 per
day) gives 100 from both implementations; see `c10_rsi_cex` for the flat
case. -/
theorem c10_rsi_amended_witness :
    15 ≤ ([1,2,3,4,5,6,7,8,9,10,11,12,13,14,15] : List ℚ).length ∧
    avg_loss (diffs [1,2,3,4,5,6,7,8,9,10,11,12,13,14,15]) 14 = 0 ∧
    0 < avg_gain (diffs [(1:ℚ),2,3,4,5,6,7,8,9,10,11,12,13,14,15]) 14 ∧
    (rsi_screener [1,2,3,4,5,6,7,8,9,10,11,12,13,14,15] = some 100 ∧
      compute_rsi [1,2,3,4,5,6,7,8,9,10,11,12,13,14,15] 14 = some 100) :=
  ⟨by decide, by decide, by decide,
    (c10_rsi_amended _ (by decide)).1 (by decide) (by decide)⟩


/-!
## C5 — `detect_unit_multiplier`
-/

/-- **C5 counterexample**: with two annual revenue figures for the
reference ticker — 2e14 in 2022 and 5e11 in 2023 — the *most recent*
figure is 5e11, for which the claimed thresholds give 1,000,000
(`claimed_unit_multiplier`), but `detect_unit_multiplier` takes
`max(annual_revs.values())` = 2e14 and returns 1. -/
theorem c5_unit_multiplier_cex :
    detect_unit_multiplier
        [⟨"005930", ⟨2022,12,31⟩, "RATIO_Y", "", "매출액", some 2e14⟩,
         ⟨"005930", ⟨2023,12,31⟩, "RATIO_Y", "", "매출액", some 5e11⟩] = 1 ∧
    claimed_unit_multiplier
        [⟨"005930", ⟨2022,12,31⟩, "RATIO_Y", "", "매출액", some 2e14⟩,
         ⟨"005930", ⟨2023,12,31⟩, "RATIO_Y", "", "매출액", some 5e11⟩] = 1000000 ∧
    (1 : ℕ) ≠ 1000000 :=
  ⟨by decide, by decide, by decide⟩

/-- **C5 amended**: `detect_unit_multiplier` always returns one of
{1, 1,000,000, 100,000,000}; it returns the default 100,000,000 whenever
the reference ticker "005930" or its resolved revenue dict is unavailable;
otherwise it applies the fixed thresholds (> 1e14 → 1; > 1e8 → 1,000,000;
> 1e5 → 100,000,000; otherwise 100,000,000) to the **maximum value** among
the annual (12-31) revenue figures (falling back to all dates when no
annual date exists) — not to the most recent figure. -/
theorem c5_unit_multiplier_amended (ind_df : List Row) :
    (detect_unit_multiplier ind_df = 1 ∨ detect_unit_multiplier ind_df = 1000000 ∨
      detect_unit_multiplier ind_df = 100000000) ∧
    (ind_df.filter (fun r => r.code == "005930") = [] →
      detect_unit_multiplier ind_df = 100000000) ∧
    (find_account_value
        ((ind_df.filter (fun r => r.code == "005930")).filter
          (fun r => r.group == "RATIO_Y")) "매출액" none = [] →
      detect_unit_multiplier ind_df = 100000000) ∧
    (∀ rev_dict : Series,
      rev_dict = find_account_value
        ((ind_df.filter (fun r => r.code == "005930")).filter
          (fun r => r.group == "RATIO_Y")) "매출액" none →
      rev_dict ≠ [] →
      ind_df.filter (fun r => r.code == "005930") ≠ [] →
      detect_unit_multiplier ind_df =
        (if (1e14 : ℚ) < maxVal ((if (rev_dict.filter (fun p => p.1.isAnnual)).isEmpty
              then rev_dict else rev_dict.filter (fun p => p.1.isAnnual)).map Prod.snd)
         then 1
         else if (1e8 : ℚ) < maxVal ((if (rev_dict.filter (fun p => p.1.isAnnual)).isEmpty
              then rev_dict else rev_dict.filter (fun p => p.1.isAnnual)).map Prod.snd)
         then 1000000
         else if (1e5 : ℚ) < maxVal ((if (rev_dict.filter (fun p => p.1.isAnnual)).isEmpty
              then rev_dict else rev_dict.filter (fun p => p.1.isAnnual)).map Prod.snd)
         then 100000000
         else 100000000)) := by
  refine ⟨?_, ?_, ?_, ?_⟩
  · simp only [detect_unit_multiplier]
    repeat' split
    all_goals simp
  · intro h
    simp only [detect_unit_multiplier]
    rw [if_pos (by rw [h]; rfl)]
  · intro h
    simp only [detect_unit_multiplier]
    by_cases hs : (ind_df.filter (fun r => r.code == "005930")).isEmpty
    · rw [if_pos hs]
    · rw [if_neg hs, if_pos (by rw [h]; rfl)]
  · intro rev_dict hrev hne hsam
    simp only [detect_unit_multiplier]
    rw [if_neg (by simpa using hsam), if_neg (by rw [← hrev]; simpa using hne),
      ← hrev]

/-- Witness for C5 at the counterexample table: the non-default branch
applies the thresholds to the maximal annual value. -/
theorem c5_unit_multiplier_amended_witness :
    let ex : List Row :=
      [⟨"005930", ⟨2022,12,31⟩, "RATIO_Y", "", "매출액", some 2e14⟩,
       ⟨"005930", ⟨2023,12,31⟩, "RATIO_Y", "", "매출액", some 5e11⟩]
    let rev_dict := find_account_value
      ((ex.filter (fun r => r.code == "005930")).filter
        (fun r => r.group == "RATIO_Y")) "매출액" none
    rev_dict ≠ [] ∧
    ex.filter (fun r => r.code == "005930") ≠ [] ∧
    detect_unit_multiplier ex =
      (if (1e14 : ℚ) < maxVal ((if (rev_dict.filter (fun p => p.1.isAnnual)).isEmpty
            then rev_dict else rev_dict.filter (fun p => p.1.isAnnual)).map Prod.snd)
       then 1
       else if (1e8 : ℚ) < maxVal ((if (rev_dict.filter (fun p => p.1.isAnnual)).isEmpty
            then rev_dict else rev_dict.filter (fun p => p.1.isAnnual)).map Prod.snd)
       then 1000000
       else if (1e5 : ℚ) < maxVal ((if (rev_dict.filter (fun p => p.1.isAnnual)).isEmpty
            then rev_dict else rev_dict.filter (fun p => p.1.isAnnual)).map Prod.snd)
       then 100000000
       else 100000000) := by
  intro ex rev_dict
  exact ⟨by decide, by decide,
    (c5_unit_multiplier_amended ex).2.2.2 rev_dict rfl (by decide) (by decide)⟩


/-!
## C6 — percentile ranks preserve undefined inputs
-/

/-- (Replacing one summand's `none` by `some 0` does not change the
weighted composite sum — undefined contributes exactly zero there.) -/
lemma composite_zip_congr (ws : List ℚ) (pre : List (Option ℚ))
    (x y : Option ℚ) (hxy : x.getD 0 = y.getD 0) (suf : List (Option ℚ)) :
    ((ws.zip (pre ++ x :: suf)).map (fun p => p.1 * p.2.getD 0)).sum =
    ((ws.zip (pre ++ y :: suf)).map (fun p => p.1 * p.2.getD 0)).sum := by
  induction pre generalizing ws with
  | nil =>
    cases ws with
    | nil => rfl
    | cons w ws' => simp [hxy]
  | cons p pre' ih =>
    cases ws with
    | nil => rfl
    | cons w ws' => simp [ih ws']

/-- **C6**: every percentile-rank score column preserves undefined inputs
as undefined — a row whose factor value is absent gets an absent rank (and
absent `S_` scores), never 0, never a worst rank; a present value always
gets a present rank computed among the present values only; and an
undefined sub-score is treated as zero contribution only at the final
weighted composite sum. -/
theorem c6_rank_preserves_nan :
    (∀ (col : List (Option ℚ)) (i : Nat), col[i]? = some none →
      (rank_pct col)[i]? = some none ∧
      (score_high col)[i]? = some none ∧
      (score_low col)[i]? = some none) ∧
    (∀ (col : List (Option ℚ)) (i : Nat), (rank_pct col)[i]? = some none →
      col[i]? = some none) ∧
    (∀ (col : List (Option ℚ)) (i : Nat) (v : ℚ), col[i]? = some (some v) →
      (rank_pct col)[i]? =
        some (some (rank_avg (col.filterMap id) v / ((col.filterMap id).length : ℚ)))) ∧
    (∀ (pre : List (Option ℚ)) (suf : List (Option ℚ)),
      composite_score (pre ++ none :: suf) = composite_score (pre ++ some 0 :: suf)) := by
  refine ⟨fun col i h => ?_, fun col i h => ?_, fun col i v h => ?_, fun pre suf => ?_⟩
  · refine ⟨?_, ?_, ?_⟩
    · unfold rank_pct
      rw [List.getElem?_map, h]
      rfl
    · unfold score_high rank_pct
      rw [List.getElem?_map, List.getElem?_map, h]
      rfl
    · unfold score_low rank_pct
      rw [List.getElem?_map, List.getElem?_map, h]
      rfl
  · unfold rank_pct at h
    rw [List.getElem?_map] at h
    cases hc : col[i]? with
    | none => rw [hc] at h; exact absurd h (by simp)
    | some x =>
      rw [hc] at h
      cases x with
      | none => rfl
      | some v => exact absurd h (by simp)
  · unfold rank_pct
    rw [List.getElem?_map, h]
    rfl
  · unfold composite_score
    exact composite_zip_congr _ _ _ _ (by rfl) _

/-- Witness for C6 on a concrete column `[some 3, none, some 1]`: the
`none` row keeps an undefined rank while the composite treats an undefined
sub-score as zero. -/
theorem c6_rank_preserves_nan_witness :
    (([some 3, none, some 1] : List (Option ℚ))[1]? = some none) ∧
    ((rank_pct [some 3, none, some 1])[1]? = some none ∧
      (score_high [some 3, none, some 1])[1]? = some none ∧
      (score_low [some 3, none, some 1])[1]? = some none) ∧
    composite_score ([some 5] ++ none :: [some 7]) =
      composite_score ([some 5] ++ some 0 :: [some 7]) :=
  ⟨by decide, c6_rank_preserves_nan.1 [some 3, none, some 1] 1 (by decide),
    c6_rank_preserves_nan.2.2.2 [some 5] [some 7]⟩


/-!
## C8 — screen idempotence
-/

/-- (Generic shape of a screen: a pure row predicate followed by a
re-sorting of the selection.  Applying it to its own output permutes the
same rows.) -/
lemma perm_screen_idem (p : ScoredRow → Bool)
    (sortf : List ScoredRow → List ScoredRow)
    (hsort : ∀ l, List.Perm (sortf l) l) (df : List ScoredRow) :
    List.Perm (sortf ((sortf (df.filter p)).filter p)) (sortf (df.filter p)) := by
  have h2 : List.Perm ((sortf (df.filter p)).filter p) ((df.filter p).filter p) :=
    (hsort (df.filter p)).filter p
  rw [List.filter_filter] at h2
  simp only [Bool.and_self] at h2
  exact ((hsort _).trans h2).trans (hsort _).symm

/-- **C8**: both screens' predicates are pure functions of each row's own
column values, so applying a screen to its own output selects the same
rows: `S(S(df))` is a permutation (same multiset of rows, the sort key is
recomputed) of `S(df)`, for the quality screen and for the turnaround
screen. -/
theorem c8_screen_idempotent (df : List ScoredRow) :
    List.Perm (apply_screen (apply_screen df)) (apply_screen df) ∧
    List.Perm (apply_turnaround_screen (apply_turnaround_screen df))
      (apply_turnaround_screen df) :=
  ⟨perm_screen_idem screen_mask
      (fun l => List.insertionSort
        (fun a b => oKey b.total_score ≤ oKey a.total_score) l)
      (fun _ => List.perm_insertionSort _ _) df,
    perm_screen_idem turn_mask
      (fun l => List.insertionSort
        (fun a b => oKey (turn_score l b) ≤ oKey (turn_score l a)) l)
      (fun _ => List.perm_insertionSort _ _) df⟩


/-!
## Dictionary-key lemmas for the account resolver
-/

lemma mem_skeys_of_sget? {s : Series} {d : Date} {v : ℚ}
    (h : sget? s d = some v) : d ∈ skeys s := by
  unfold sget? at h
  cases hf : s.find? (fun p => p.1 == d) with
  | none => rw [hf] at h; exact absurd h (by simp)
  | some p =>
    have hp := List.mem_of_find?_eq_some hf
    have hpd : p.1 = d := by simpa using List.find?_some hf
    exact hpd ▸ List.mem_map.2 ⟨p, hp, rfl⟩

lemma sget?_isSome_of_mem {s : Series} {d : Date} (h : d ∈ skeys s) :
    (sget? s d).isSome := by
  unfold sget?
  obtain ⟨p, hp, hpd⟩ := List.mem_map.1 h
  have : (s.find? (fun p => p.1 == d)).isSome :=
    List.find?_isSome.2 ⟨p, hp, by simp [hpd]⟩
  cases hf : s.find? (fun p => p.1 == d) with
  | none => rw [hf] at this; exact absurd this (by simp)
  | some q => simp

lemma not_mem_skeys_of_find?_none {s : Series} {d : Date}
    (h : ¬ (s.find? (fun p => p.1 == d)).isSome) : d ∉ skeys s := by
  intro hd
  obtain ⟨p, hp, hpd⟩ := List.mem_map.1 hd
  exact h (List.find?_isSome.2 ⟨p, hp, by simp [hpd]⟩)

lemma skeys_supsert_found {s : Series} {d : Date} {v : ℚ}
    (h : (s.find? (fun p => p.1 == d)).isSome) :
    skeys (supsert s d v) = skeys s := by
  unfold supsert skeys
  rw [if_pos h, List.map_map]
  apply List.map_congr_left
  intro p _
  by_cases hpd : p.1 = d
  · simp [hpd]
  · simp [hpd]

lemma skeys_supsert_not_found {s : Series} {d : Date} {v : ℚ}
    (h : ¬ (s.find? (fun p => p.1 == d)).isSome) :
    skeys (supsert s d v) = skeys s ++ [d] := by
  unfold supsert skeys
  rw [if_neg h, List.map_append]
  rfl

lemma build_series_nodup : ∀ (rows : List Row) (acc : Series),
    (skeys acc).Nodup → (skeys (build_series rows acc)).Nodup := by
  intro rows
  induction rows with
  | nil => intro acc h; exact h
  | cons r rest ih =>
    intro acc h
    simp only [build_series]
    cases hv : r.value with
    | none => exact ih acc h
    | some v =>
      apply ih
      by_cases hf : (acc.find? (fun p => p.1 == r.date)).isSome
      · rw [skeys_supsert_found hf]; exact h
      · rw [skeys_supsert_not_found hf]
        rw [List.nodup_append]
        exact ⟨h, by simp, by
          intro a ha hb
          have : a = r.date := by simpa using hb
          exact not_mem_skeys_of_find?_none hf (this ▸ ha)⟩

lemma build_series_keys_sub : ∀ (rows : List Row) (acc : Series) (d : Date),
    d ∈ skeys (build_series rows acc) → d ∈ skeys acc ∨ ∃ r ∈ rows, r.date = d := by
  intro rows
  induction rows with
  | nil => intro acc d h; exact Or.inl h
  | cons r rest ih =>
    intro acc d h
    simp only [build_series] at h
    cases hv : r.value with
    | none =>
      rw [hv] at h
      rcases ih _ _ h with h' | ⟨r', hr', hd⟩
      · exact Or.inl h'
      · exact Or.inr ⟨r', List.mem_cons_of_mem _ hr', hd⟩
    | some v =>
      rw [hv] at h
      rcases ih _ _ h with h' | ⟨r', hr', hd⟩
      · by_cases hf : (acc.find? (fun p => p.1 == r.date)).isSome
        · rw [skeys_supsert_found hf] at h'
          exact Or.inl h'
        · rw [skeys_supsert_not_found hf] at h'
          rcases List.mem_append.1 h' with h'' | h''
          · exact Or.inl h''
          · exact Or.inr ⟨r, List.mem_cons_self _ _, by
              have : d = r.date := by simpa using h''
              exact this.symm⟩
      · exact Or.inr ⟨r', List.mem_cons_of_mem _ hr', hd⟩

lemma dedupCodeDate_subset : ∀ (seen : List (String × Date)) (l : List Row),
    ∀ r ∈ dedupCodeDate seen l, r ∈ l := by
  intro seen l
  induction l generalizing seen with
  | nil => intro r h; exact absurd h (by simp [dedupCodeDate])
  | cons x rest ih =>
    intro r h
    simp only [dedupCodeDate] at h
    by_cases hseen : (x.code, x.date) ∈ seen
    · rw [if_pos hseen] at h
      exact List.mem_cons_of_mem _ (ih _ _ h)
    · rw [if_neg hseen] at h
      rcases List.mem_cons.1 h with rfl | h'
      · exact List.mem_cons_self _ _
      · exact List.mem_cons_of_mem _ (ih _ _ h')

lemma fav_matched_sub (df : List Row) (key : String) (filt : Option (List Date)) :
    ∀ r ∈ fav_matched df key filt, r ∈ fav_work df filt := by
  intro r h
  simp only [fav_matched] at h
  split at h
  · exact (List.mem_filter.1 h).1
  · exact (List.mem_filter.1 h).1

lemma fav_keys_nodup (df : List Row) (key : String) (filt : Option (List Date)) :
    (skeys (find_account_value df key filt)).Nodup :=
  build_series_nodup _ [] (by simp [skeys])

lemma fav_keys_rows (df : List Row) (key : String) (filt : Option (List Date)) :
    ∀ d ∈ skeys (find_account_value df key filt), ∃ r ∈ fav_work df filt, r.date = d := by
  intro d hd
  unfold find_account_value at hd
  rcases build_series_keys_sub _ _ _ hd with h | ⟨r, hr, hd'⟩
  · exact absurd h (by simp [skeys])
  · exact ⟨r, fav_matched_sub df key filt r (dedupCodeDate_subset _ _ _ hr), hd'⟩

lemma fav_length_eq_keys (df : List Row) (key : String) (filt : Option (List Date)) :
    (find_account_value df key filt).length = (skeys (find_account_value df key filt)).length := by
  simp [skeys]

/-!
## Cardinality lemmas for date lists
-/

lemma nodup_subset_length {l1 l2 : List Date} (h1 : l1.Nodup) (hsub : l1 ⊆ l2)
    (h2 : l2.Nodup) : l1.length ≤ l2.length := by
  classical
  have hfin : l1.toFinset ⊆ l2.toFinset := fun x hx =>
    List.mem_toFinset.2 (hsub (List.mem_toFinset.1 hx))
  have := Finset.card_le_card hfin
  rwa [List.toFinset_card_of_nodup h1, List.toFinset_card_of_nodup h2] at this

lemma cover_of_length_le {l1 l2 : List Date} (h1 : l1.Nodup) (hsub : l1 ⊆ l2)
    (h2 : l2.Nodup) (hlen : l2.length ≤ l1.length) : ∀ d ∈ l2, d ∈ l1 := by
  classical
  have hfin : l1.toFinset ⊆ l2.toFinset := fun x hx =>
    List.mem_toFinset.2 (hsub (List.mem_toFinset.1 hx))
  have hcards : l2.toFinset.card ≤ l1.toFinset.card := by
    rw [List.toFinset_card_of_nodup h1, List.toFinset_card_of_nodup h2]
    exact hlen
  have heq := Finset.eq_of_subset_of_card_le hfin hcards
  intro d hd
  exact List.mem_toFinset.1 (heq ▸ List.mem_toFinset.2 hd)

lemma uniqueSortedDates_nodup (rows : List Row) : (uniqueSortedDates rows).Nodup :=
  ((List.perm_insertionSort _ _).nodup_iff).2 (List.nodup_dedup _)


/-!
## C4 — TTM aggregates are never partial sums
-/

/-- **C4**: (a) the per-stock TTM figure (`ttm_figure`, used for revenue /
operating income / net income) is a sum of quarterly values only when the
key resolves on *all* of the latest 4 quarterly dates; in every other case
it is the latest-annual fallback (`annual_latest`, itself possibly
undefined) — never a partial sum.  (b) In `calc_ttm_yoy`, with fewer than
8 dated quarterly values the result is entirely undefined; a defined
current-TTM sum is a sum over 4 quarters that are all present; and the TTM
YoY percentage is defined only if both 4-quarter sums are defined and the
prior sum is positive. -/
theorem c4_ttm_spec :
    (∀ (q_data y_data : List Row) (key : String) (last4q : List Date) (d : Series),
      last4q = (if 4 ≤ (uniqueSortedDates q_data).length
        then (uniqueSortedDates q_data).drop ((uniqueSortedDates q_data).length - 4)
        else []) →
      d = find_account_value (q_data.filter (fun r => last4q.contains r.date)) key none →
      (¬ (last4q ≠ [] ∧ ∀ dt ∈ last4q, dt ∈ skeys d) →
        ttm_figure q_data y_data key = annual_latest y_data key) ∧
      ((last4q ≠ [] ∧ ∀ dt ∈ last4q, dt ∈ skeys d) →
        ttm_figure q_data y_data key = some ((d.map Prod.snd).sum))) ∧
    (∀ (q_data : List Row) (key : String),
      ((find_account_value q_data key none).length < 8 →
        calc_ttm_yoy q_data key = ⟨none, none, none⟩) ∧
      (∀ c : ℚ, (calc_ttm_yoy q_data key).ttm_current = some c →
        ∃ last4 : List Date, last4.length = 4 ∧
          (∀ dt ∈ last4, (sget? (find_account_value q_data key none) dt).isSome) ∧
          c = (last4.map (sget (find_account_value q_data key none))).sum) ∧
      (∀ yv : ℚ, (calc_ttm_yoy q_data key).ttm_yoy = some yv →
        ∃ c p : ℚ, (calc_ttm_yoy q_data key).ttm_current = some c ∧
          (calc_ttm_yoy q_data key).ttm_prev = some p ∧ 0 < p)) := by
  constructor
  · intro q_data y_data key last4q d hlast hd
    have hnd : (skeys d).Nodup := hd ▸ fav_keys_nodup _ _ _
    have hsub : ∀ dt ∈ skeys d, dt ∈ last4q := by
      intro dt hdt
      obtain ⟨r, hr, hrd⟩ := fav_keys_rows _ key none dt (hd ▸ hdt)
      have hr' : r ∈ q_data.filter (fun r => last4q.contains r.date) := hr
      have hcont := (List.mem_filter.1 hr').2
      rw [List.contains_iff_exists_mem_beq] at hcont
      obtain ⟨x, hx, hbeq⟩ := hcont
      have hrx : r.date = x := by simpa using hbeq
      rw [← hrd, hrx]
      exact hx
    by_cases hq : 4 ≤ (uniqueSortedDates q_data).length
    · have hlast' : last4q =
          (uniqueSortedDates q_data).drop ((uniqueSortedDates q_data).length - 4) := by
        rw [hlast, if_pos hq]
      have hlen4 : last4q.length = 4 := by
        rw [hlast', List.length_drop]
        omega
      have hne : last4q ≠ [] := by
        intro h
        rw [h] at hlen4
        simp at hlen4
      have hnl : last4q.Nodup := by
        rw [hlast']
        exact List.Nodup.sublist (List.drop_sublist _ _) (uniqueSortedDates_nodup q_data)
      have hdlen : d.length = (skeys d).length := by simp [skeys]
      have hiff : 4 ≤ d.length ↔ ∀ dt ∈ last4q, dt ∈ skeys d := by
        constructor
        · intro h4 dt hdt
          exact cover_of_length_le hnd (fun x hx => hsub x hx) hnl
            (by omega) dt hdt
        · intro hcov
          have := nodup_subset_length hnl (fun x hx => hcov x hx) hnd
          omega
      constructor
      · intro hbad
        have hncov : ¬ ∀ dt ∈ last4q, dt ∈ skeys d := fun hcov => hbad ⟨hne, hcov⟩
        have hd4 : ¬ 4 ≤ d.length := fun h4 => hncov (hiff.1 h4)
        simp only [ttm_figure]
        rw [← hlast, ← hd]
        rw [if_neg (by simpa using hne), if_neg hd4]
      · rintro ⟨-, hcov⟩
        have h4 : 4 ≤ d.length := hiff.2 hcov
        simp only [ttm_figure]
        rw [← hlast, ← hd]
        rw [if_neg (by simpa using hne), if_pos h4]
    · have hlast' : last4q = [] := by rw [hlast, if_neg hq]
      constructor
      · intro _
        simp only [ttm_figure]
        rw [← hlast]
        rw [if_pos (by simp [hlast'])]
      · rintro ⟨hne', -⟩
        exact absurd hlast' hne'
  · intro q_data key
    refine ⟨?_, ?_, ?_⟩
    · intro h8
      simp only [calc_ttm_yoy]
      by_cases hq : (uniqueSortedDates q_data).length < 8
      · rw [if_pos hq]
      · rw [if_neg hq, if_pos h8]
    · intro c hc
      simp only [calc_ttm_yoy] at hc
      by_cases hq : (uniqueSortedDates q_data).length < 8
      · rw [if_pos hq] at hc
        exact absurd hc (by simp)
      · rw [if_neg hq] at hc
        by_cases h8 : (find_account_value q_data key none).length < 8
        · rw [if_pos h8] at hc
          exact absurd hc (by simp)
        · rw [if_neg h8] at hc
          have hmemall : ∀ dt ∈ (sortedKeys (find_account_value q_data key none)).drop
              ((sortedKeys (find_account_value q_data key none)).length - 4),
              (sget? (find_account_value q_data key none) dt).isSome := by
            intro dt hdt
            exact sget?_isSome_of_mem (mem_sortedKeys.1 (List.mem_of_mem_drop hdt))
          have hfilter : ((sortedKeys (find_account_value q_data key none)).drop
              ((sortedKeys (find_account_value q_data key none)).length - 4)).filter
                (fun dt => (sget? (find_account_value q_data key none) dt).isSome) =
              (sortedKeys (find_account_value q_data key none)).drop
                ((sortedKeys (find_account_value q_data key none)).length - 4) :=
            List.filter_eq_self.2 (fun a ha => by simpa using hmemall a ha)
          rw [hfilter] at hc
          rw [if_pos (by rw [List.length_drop, sortedKeys_length]; omega)] at hc
          refine ⟨(sortedKeys (find_account_value q_data key none)).drop
              ((sortedKeys (find_account_value q_data key none)).length - 4),
            by rw [List.length_drop, sortedKeys_length]; omega, hmemall, ?_⟩
          exact (Option.some_inj.1 hc).symm
    · intro yv hyv
      simp only [calc_ttm_yoy] at hyv ⊢
      by_cases hq : (uniqueSortedDates q_data).length < 8
      · rw [if_pos hq] at hyv
        exact absurd hyv (by simp)
      · rw [if_neg hq] at hyv ⊢
        by_cases h8 : (find_account_value q_data key none).length < 8
        · rw [if_pos h8] at hyv
          exact absurd hyv (by simp)
        · rw [if_neg h8] at hyv ⊢
          have hfilter1 : ((sortedKeys (find_account_value q_data key none)).drop
              ((sortedKeys (find_account_value q_data key none)).length - 4)).filter
                (fun dt => (sget? (find_account_value q_data key none) dt).isSome) =
              (sortedKeys (find_account_value q_data key none)).drop
                ((sortedKeys (find_account_value q_data key none)).length - 4) :=
            List.filter_eq_self.2 (fun a ha => by
              simpa using sget?_isSome_of_mem
                (mem_sortedKeys.1 (List.mem_of_mem_drop ha)))
          have hfilter2 : (((sortedKeys (find_account_value q_data key none)).drop
              ((sortedKeys (find_account_value q_data key none)).length - 8)).take 4).filter
                (fun dt => (sget? (find_account_value q_data key none) dt).isSome) =
              ((sortedKeys (find_account_value q_data key none)).drop
                ((sortedKeys (find_account_value q_data key none)).length - 8)).take 4 :=
            List.filter_eq_self.2 (fun a ha => by
              simpa using sget?_isSome_of_mem
                (mem_sortedKeys.1 (List.mem_of_mem_drop (List.mem_of_mem_take ha))))
          rw [hfilter1, hfilter2] at hyv ⊢
          rw [if_pos (by rw [List.length_drop, sortedKeys_length]; omega),
            if_pos (by
              rw [List.length_take, List.length_drop, sortedKeys_length]
              omega)] at hyv ⊢
          dsimp only [] at hyv
          split at hyv
          next hp =>
            exact ⟨_, _, rfl, rfl, hp⟩
          next hp => exact absurd hyv (by simp)


/-- Witness for C4 at a concrete 4-quarter table whose key resolves on all
four latest dates: the TTM figure is the full quarterly sum. -/
theorem c4_ttm_spec_witness :
    let q : List Row :=
      [⟨"A", ⟨2023,3,31⟩, "RATIO_Q", "", "매출액", some 1⟩,
       ⟨"A", ⟨2023,6,30⟩, "RATIO_Q", "", "매출액", some 2⟩,
       ⟨"A", ⟨2023,9,30⟩, "RATIO_Q", "", "매출액", some 3⟩,
       ⟨"A", ⟨2023,12,31⟩, "RATIO_Q", "", "매출액", some 4⟩]
    let last4q := (if 4 ≤ (uniqueSortedDates q).length
      then (uniqueSortedDates q).drop ((uniqueSortedDates q).length - 4) else [])
    let d := find_account_value (q.filter (fun r => last4q.contains r.date)) "매출액" none
    (last4q ≠ [] ∧ ∀ dt ∈ last4q, dt ∈ skeys d) ∧
    ttm_figure q [] "매출액" = some ((d.map Prod.snd).sum) := by
  intro q last4q d
  exact ⟨by decide, (c4_ttm_spec.1 q [] "매출액" last4q d rfl rfl).2 (by decide)⟩


/-!
## C3 — `calc_quarterly_yoy`
-/

lemma mem_takeWhile {α : Type} {p : α → Bool} :
    ∀ {l : List α} {x : α}, x ∈ l.takeWhile p → p x = true := by
  intro l
  induction l with
  | nil => intro x h; simp [List.takeWhile] at h
  | cons a t ih =>
    intro x h
    rw [List.takeWhile_cons] at h
    by_cases hp : p a
    · rw [if_pos hp] at h
      rcases List.mem_cons.1 h with rfl | h'
      · exact hp
      · exact ih h'
    · rw [if_neg hp] at h
      simp at h

/-- (Backward scan with stop: any list splits into a prefix and the
maximal all-good suffix the scan counts, with the element just before the
suffix failing the test.) -/
lemma takeWhile_suffix_split {α : Type} (p : α → Bool) (l : List α) :
    ∃ pre suf : List α, l = pre ++ suf ∧
      suf.length = (l.reverse.takeWhile p).length ∧
      (∀ x ∈ suf, p x = true) ∧
      (∀ q, pre.getLast? = some q → p q = false) := by
  refine ⟨(l.reverse.dropWhile p).reverse, (l.reverse.takeWhile p).reverse,
    ?_, by simp, ?_, ?_⟩
  · rw [← List.reverse_append, List.takeWhile_append_dropWhile, List.reverse_reverse]
  · intro x hx
    exact mem_takeWhile (List.mem_reverse.1 hx)
  · intro q hq
    rw [List.getLast?_reverse] at hq
    have := List.head?_dropWhile_not p l.reverse
    rw [hq] at this
    simpa using this

lemma mem_yoy_entries_pos {vals : Series} {dt : Date} {prev curr : ℚ}
    (hp : sget? vals (prev_year_date dt) = some prev)
    (hc : sget? vals dt = some curr) (h0 : 0 < prev) :
    (dt, some ((curr / prev - 1) * 100)) ∈ yoy_entries vals := by
  unfold yoy_entries
  apply List.mem_filterMap.2
  refine ⟨dt, mem_sortedKeys.2 (mem_skeys_of_sget? hc), ?_⟩
  rw [hp, hc]
  dsimp only
  rw [if_pos h0]

lemma mem_yoy_entries_flip {vals : Series} {dt : Date} {prev curr : ℚ}
    (hp : sget? vals (prev_year_date dt) = some prev)
    (hc : sget? vals dt = some curr) (hneg : prev < 0) (hcpos : 0 < curr) :
    (dt, (none : Option ℚ)) ∈ yoy_entries vals := by
  unfold yoy_entries
  apply List.mem_filterMap.2
  refine ⟨dt, mem_sortedKeys.2 (mem_skeys_of_sget? hc), ?_⟩
  rw [hp, hc]
  dsimp only
  rw [if_neg (not_lt.2 hneg.le), if_pos ⟨hneg, hcpos⟩]

/-- **C3**: with at least `min_quarters = 5` dated quarters available, for
every quarter whose exact prior-year date is also present: a positive
prior value yields the YoY entry `(curr/prev - 1) * 100`, and a negative
prior with positive current yields an entry that is *undefined* (`none`),
never a percentage; and the consecutive-positive-YoY count is the length
of the maximal suffix of the YoY series (dates ascending) whose entries
are all defined-and-positive — the entry just before that suffix, if any,
fails the defined-and-positive test, i.e. the backward scan stops there
(an undefined entry also stops it). -/
theorem c3_quarterly_yoy_spec (q_data : List Row) (key : String)
    (h1 : 5 ≤ (uniqueSortedDates q_data).length)
    (h2 : 5 ≤ (find_account_value q_data key none).length) :
    (∀ (dt : Date) (prev curr : ℚ),
      sget? (find_account_value q_data key none) (prev_year_date dt) = some prev →
      sget? (find_account_value q_data key none) dt = some curr →
      0 < prev →
      (dt, some ((curr / prev - 1) * 100)) ∈ (calc_quarterly_yoy q_data key).yoy_series) ∧
    (∀ (dt : Date) (prev curr : ℚ),
      sget? (find_account_value q_data key none) (prev_year_date dt) = some prev →
      sget? (find_account_value q_data key none) dt = some curr →
      prev < 0 → 0 < curr →
      (dt, (none : Option ℚ)) ∈ (calc_quarterly_yoy q_data key).yoy_series) ∧
    (∃ pre suf : List (Date × Option ℚ),
      (calc_quarterly_yoy q_data key).yoy_series = pre ++ suf ∧
      suf.length = (calc_quarterly_yoy q_data key).consecutive_yoy_growth ∧
      (∀ p ∈ suf, yoyGood p.2 = true) ∧
      (∀ q, pre.getLast? = some q → yoyGood q.2 = false)) := by
  have h1' : ¬ (uniqueSortedDates q_data).length < 5 := by omega
  have h2' : ¬ (find_account_value q_data key none).length < 5 := by omega
  by_cases he : (yoy_entries (find_account_value q_data key none)).isEmpty
  · have hLnil : yoy_entries (find_account_value q_data key none) = [] := by
      simpa using he
    have hys : (calc_quarterly_yoy q_data key).yoy_series = [] := by
      simp only [calc_quarterly_yoy]
      rw [if_neg h1', if_neg h2', if_pos he]
      rfl
    have hcnt : (calc_quarterly_yoy q_data key).consecutive_yoy_growth = 0 := by
      simp only [calc_quarterly_yoy]
      rw [if_neg h1', if_neg h2', if_pos he]
      rfl
    refine ⟨?_, ?_, ⟨[], [], by rw [hys]; rfl, by rw [hcnt]; rfl, by simp, by simp⟩⟩
    · intro dt prev curr hp hc h0
      exact absurd (mem_yoy_entries_pos hp hc h0) (by rw [hLnil]; simp)
    · intro dt prev curr hp hc hneg hcpos
      exact absurd (mem_yoy_entries_flip hp hc hneg hcpos) (by rw [hLnil]; simp)
  · have hys : (calc_quarterly_yoy q_data key).yoy_series =
        yoy_entries (find_account_value q_data key none) := by
      simp only [calc_quarterly_yoy]
      rw [if_neg h1', if_neg h2', if_neg he]
    have hcnt : (calc_quarterly_yoy q_data key).consecutive_yoy_growth =
        (((yoy_entries (find_account_value q_data key none)).reverse.map
          Prod.snd).takeWhile yoyGood).length := by
      simp only [calc_quarterly_yoy]
      rw [if_neg h1', if_neg h2', if_neg he]
    refine ⟨?_, ?_, ?_⟩
    · intro dt prev curr hp hc h0
      rw [hys]
      exact mem_yoy_entries_pos hp hc h0
    · intro dt prev curr hp hc hneg hcpos
      rw [hys]
      exact mem_yoy_entries_flip hp hc hneg hcpos
    · obtain ⟨pre, suf, hsplit, hlen, hgood, hlastq⟩ :=
        takeWhile_suffix_split (fun pr : Date × Option ℚ => yoyGood pr.2)
          (yoy_entries (find_account_value q_data key none))
      refine ⟨pre, suf, by rw [hys]; exact hsplit, ?_, hgood, hlastq⟩
      rw [hcnt, hlen, List.takeWhile_map, List.length_map]
      rfl

/-- Witness for C3 at a 5-quarter table with one prior-year pair
(2023-03-31: 10 → 2024-03-31: 15, a +50% YoY entry). -/
theorem c3_quarterly_yoy_spec_witness :
    let qd : List Row :=
      [⟨"A", ⟨2023,3,31⟩, "RATIO_Q", "", "매출액", some 10⟩,
       ⟨"A", ⟨2023,6,30⟩, "RATIO_Q", "", "매출액", some 20⟩,
       ⟨"A", ⟨2023,9,30⟩, "RATIO_Q", "", "매출액", some 30⟩,
       ⟨"A", ⟨2023,12,31⟩, "RATIO_Q", "", "매출액", some 40⟩,
       ⟨"A", ⟨2024,3,31⟩, "RATIO_Q", "", "매출액", some 15⟩]
    5 ≤ (uniqueSortedDates qd).length ∧
    5 ≤ (find_account_value qd "매출액" none).length ∧
    ((⟨2024,3,31⟩ : Date), some (((15 : ℚ) / 10 - 1) * 100)) ∈
      (calc_quarterly_yoy qd "매출액").yoy_series := by
  intro qd
  exact ⟨by decide, by decide,
    (c3_quarterly_yoy_spec qd "매출액" (by decide) (by decide)).1
      ⟨2024,3,31⟩ 10 15 (by decide) (by decide) (by decide)⟩

end QuantScreener
